import Mathlib

/-!
Shallow embedding of the `twilight-cache-inmemory` crate (repository
`dawn-rs/dawn`): the in-process event-driven cache specified in `spec.md`.

Sources embedded:
  * `cache/in-memory/src/lib.rs`    — cache state, cache_* helpers, queries, clear
  * `cache/in-memory/src/updates.rs`— per-event handlers and the event-type guard
  * `cache/in-memory/src/config.rs` — Config and the EventType bitmask

Representation conventions:
  * `DashMap<K, V>` and `BTreeMap<K, V>` are association lists `List (K × V)`
    with unique keys; `DashMap::insert` replaces in place, `BTreeMap` keeps its
    keys in ascending order (`btInsert`) so that `iter().next_back()` is the
    entry of largest key (`List.getLast?`).
  * `HashSet`/`BTreeSet` values are duplicate-free `List`s; `insert` is a
    no-op when the element is present, mirroring set semantics.
  * `Arc<T>` is `T` (snapshots are compared structurally; pointer identity is
    not modelled).
  * Rust `u64` ids are `Nat` (ids are only compared for equality/order,
    never arithmetically, so no wraparound is involved).
-/

namespace Dawn

/-! ## Association-list maps (DashMap / BTreeMap) and list sets (HashSet) -/

/-- `DashMap::get` / `BTreeMap::get`: first value stored at key `k`. -/
def alookup {K V : Type} [DecidableEq K] : List (K × V) → K → Option V
  | [], _ => none
  | (k, v) :: t, k0 => if k0 = k then some v else alookup t k0

/-- `DashMap::insert`: replace the value in place when the key is present,
otherwise prepend the new entry. -/
def insertRep {K V : Type} [DecidableEq K] : List (K × V) → K → V → List (K × V)
  | [], k, v => [(k, v)]
  | (k1, v1) :: t, k, v => if k = k1 then (k, v) :: t else (k1, v1) :: insertRep t k v

/-- `DashMap::remove`: drop the entry stored at key `k`. -/
def eraseKey {K V : Type} [DecidableEq K] : List (K × V) → K → List (K × V)
  | [], _ => []
  | (k1, v1) :: t, k => if k1 = k then eraseKey t k else (k1, v1) :: eraseKey t k

/-- `HashSet::insert`: no-op when the element is already present. -/
def insertSet {A : Type} [DecidableEq A] (l : List A) (a : A) : List A :=
  if a ∈ l then l else a :: l

/-- `HashSet::remove`. -/
def eraseSet {A : Type} [DecidableEq A] : List A → A → List A
  | [], _ => []
  | x :: t, a => if x = a then eraseSet t a else x :: eraseSet t a

/-- `BTreeMap::insert`: keep entries sorted by key in ascending order. -/
def btInsert {V : Type} : List (Nat × V) → Nat → V → List (Nat × V)
  | [], k, v => [(k, v)]
  | (k1, v1) :: t, k, v =>
    if k < k1 then (k, v) :: (k1, v1) :: t
    else if k = k1 then (k, v) :: t
    else (k1, v1) :: btInsert t k v

/-- `BTreeMap::remove`. -/
def btRemove {V : Type} : List (Nat × V) → Nat → List (Nat × V)
  | [], _ => []
  | (k1, v1) :: t, k => if k1 = k then btRemove t k else (k1, v1) :: btRemove t k

/-- The keys of an association list, in storage order. -/
def keysOf {K V : Type} (l : List (K × V)) : List K :=
  l.map Prod.fst

/-! ## Identifiers (`twilight_model::id`): opaque u64 newtypes. -/

abbrev GuildId := Nat
abbrev ChannelId := Nat
abbrev RoleId := Nat
abbrev EmojiId := Nat
abbrev UserId := Nat
abbrev MessageId := Nat

/-! ## Entities

`User`, `Member`, `VoiceState`, `CurrentUser` and the payload wrappers carry
exactly the fields their Rust definitions show (the `model` crate files present
in the repository and the constructions in `lib.rs`'s tests). Enumerated wire
types with no behavioural role in the cache (`ChannelType`, `Status`,
levels/flags) are represented as `Nat`. -/

structure User where
  avatar : Option String
  bot : Bool
  discriminator : String
  email : Option String
  flags : Option Nat
  id : UserId
  locale : Option String
  mfa_enabled : Option Bool
  name : String
  premium_type : Option Nat
  public_flags : Option Nat
  system : Option Bool
  verified : Option Bool
deriving DecidableEq, Repr

structure CurrentUser where
  avatar : Option String
  bot : Bool
  discriminator : String
  email : Option String
  id : UserId
  mfa_enabled : Bool
  name : String
  verified : Bool
deriving DecidableEq, Repr

structure Member where
  deaf : Bool
  guild_id : GuildId
  hoisted_role : Option RoleId
  joined_at : Option String
  mute : Bool
  nick : Option String
  premium_since : Option String
  roles : List RoleId
  user : User
deriving DecidableEq, Repr

structure VoiceState where
  channel_id : Option ChannelId
  deaf : Bool
  guild_id : Option GuildId
  member : Option Member
  mute : Bool
  self_deaf : Bool
  self_mute : Bool
  self_stream : Bool
  session_id : String
  suppress : Bool
  token : Option String
  user_id : UserId
deriving DecidableEq, Repr

structure PermissionOverwrite where
  allow : Nat
  deny : Nat
  kind_is_member : Bool
  kind_id : Nat
deriving DecidableEq, Repr

structure TextChannel where
  id : ChannelId
  guild_id : Option GuildId
  kind : Nat
  last_message_id : Option MessageId
  last_pin_timestamp : Option String
  name : String
  nsfw : Bool
  permission_overwrites : List PermissionOverwrite
  parent_id : Option ChannelId
  position : Int
  rate_limit_per_user : Option Nat
  topic : Option String
deriving DecidableEq, Repr

/-- Modelled from the spec: the `CategoryChannel` definition is not among the
repository's files; §3 gives a category channel identity, owning guild and the
fields shared by all guild channels (name, position). -/
structure CategoryChannel where
  id : ChannelId
  guild_id : Option GuildId
  kind : Nat
  name : String
  permission_overwrites : List PermissionOverwrite
  position : Int
deriving DecidableEq, Repr

/-- Modelled from the spec: the `VoiceChannel` definition is not among the
repository's files; §3 gives identity, owning guild and the shared fields. -/
structure VoiceChannel where
  id : ChannelId
  guild_id : Option GuildId
  kind : Nat
  bitrate : Nat
  name : String
  permission_overwrites : List PermissionOverwrite
  position : Int
  user_limit : Option Nat
deriving DecidableEq, Repr

/-- `twilight_model::channel::GuildChannel`: tagged variant of
Category/Text/Voice (spec §9 and the matches in `lib.rs`). -/
inductive GuildChannel where
  | category (c : CategoryChannel)
  | text (c : TextChannel)
  | voice (c : VoiceChannel)
deriving DecidableEq, Repr

/-- `GuildChannel::id()`. -/
def GuildChannel.id : GuildChannel → ChannelId
  | .category c => c.id
  | .text c => c.id
  | .voice c => c.id

/-- `GuildChannel::guild_id()`. -/
def GuildChannel.guildId : GuildChannel → Option GuildId
  | .category c => c.guild_id
  | .text c => c.guild_id
  | .voice c => c.guild_id

/-- The `c.guild_id.replace(guild_id)` performed on every variant at the top
of `cache_guild_channel`. -/
def GuildChannel.withGuildId (g : GuildId) : GuildChannel → GuildChannel
  | .category c => .category { c with guild_id := some g }
  | .text c => .text { c with guild_id := some g }
  | .voice c => .voice { c with guild_id := some g }

structure PrivateChannel where
  id : ChannelId
  last_message_id : Option MessageId
  last_pin_timestamp : Option String
  kind : Nat
  recipients : List User
deriving DecidableEq, Repr

/-- Modelled from the spec: the `Group` definition is not among the
repository's files; §3 gives identity and an optional last-pin timestamp
(plus the recipient list of a group DM). -/
structure Group where
  id : ChannelId
  last_message_id : Option MessageId
  last_pin_timestamp : Option String
  kind : Nat
  name : Option String
  owner_id : UserId
  recipients : List User
deriving DecidableEq, Repr

/-- `twilight_model::channel::Channel`: the three channel classes matched on
by the channel-create/update/delete handlers. -/
inductive Channel where
  | group (c : Group)
  | guild (c : GuildChannel)
  | priv (c : PrivateChannel)
deriving DecidableEq, Repr

/-- `twilight_model::guild::Emoji` as used by `cache_emoji`. -/
structure Emoji where
  id : EmojiId
  animated : Bool
  name : String
  managed : Bool
  require_colons : Bool
  roles : List RoleId
  user : Option User
  available : Bool
deriving DecidableEq, Repr

/-- `CachedEmoji` as constructed in `lib.rs`'s `cache_emoji`. -/
structure CachedEmoji where
  id : EmojiId
  animated : Bool
  name : String
  managed : Bool
  require_colons : Bool
  roles : List RoleId
  user : Option User
  available : Bool
deriving DecidableEq, Repr

/-- Modelled from the spec: the `Role` definition is not among the
repository's files; §3 gives identity, permissions and an ordering key. -/
structure Role where
  id : RoleId
  name : String
  permissions : Nat
  position : Int
deriving DecidableEq, Repr

/-- `twilight_model::gateway::presence::UserOrId`. -/
inductive UserOrId where
  | user (u : User)
  | userId (id : UserId)
deriving DecidableEq, Repr

/-- `presence_user_id` from `lib.rs`. -/
def presence_user_id : UserOrId → UserId
  | .user u => u.id
  | .userId id => id

/-- `twilight_model::gateway::presence::Presence` (the `Activity` payloads,
behaviourally inert for the cache, are represented by their names). -/
structure Presence where
  activities : List String
  game : Option String
  guild_id : Option GuildId
  nick : Option String
  status : Nat
  user : UserOrId
deriving DecidableEq, Repr

/-- Modelled from the spec: the `CachedPresence` definition is not among the
repository's files; §3 gives a (guild, user) identity plus status and
activities. -/
structure CachedPresence where
  guild_id : Option GuildId
  status : Nat
  activities : List String
  user_id : UserId
deriving DecidableEq, Repr

/-- Modelled from the spec: the `CachedPresence::from(&presence)` conversion is
not among the repository's files; it snapshots the presence's fields. -/
def CachedPresence.ofPresence (p : Presence) : CachedPresence :=
  { guild_id := p.guild_id
    status := p.status
    activities := p.activities
    user_id := presence_user_id p.user }

/-- `CachedMember` as constructed in `lib.rs`'s `cache_member`. -/
structure CachedMember where
  deaf : Bool
  guild_id : GuildId
  joined_at : Option String
  mute : Bool
  nick : Option String
  premium_since : Option String
  roles : List RoleId
  user : User
deriving DecidableEq, Repr

/-- Modelled from the spec: the `PartialEq<Member> for CachedMember` impl used
by `cache_member`'s short-circuit (`**m == member`) is not among the
repository's files; §4.2 specifies a structural comparison of the stored value
against the incoming one, so corresponding fields are compared. -/
def CachedMember.eqMember (cm : CachedMember) (m : Member) : Bool :=
  cm.deaf = m.deaf && cm.joined_at = m.joined_at && cm.mute = m.mute &&
    cm.nick = m.nick && cm.premium_since = m.premium_since &&
    cm.roles = m.roles && cm.user = m.user

/-- The `CachedMember { ... }` record built inside `cache_member`
(`lib.rs`). -/
def CachedMember.ofMember (guild_id : GuildId) (m : Member) : CachedMember :=
  { deaf := m.deaf
    guild_id := guild_id
    joined_at := m.joined_at
    mute := m.mute
    nick := m.nick
    premium_since := m.premium_since
    roles := m.roles
    user := m.user }

/-- Modelled from the spec: the `Message` definition is not among the
repository's files; §3 gives identity, channel, author, content and
timestamps (the embed/attachment/reaction payloads, never inspected by the
claims, are elided). -/
structure Message where
  id : MessageId
  channel_id : ChannelId
  author : User
  content : String
  timestamp : String
  pinned : Bool
  tts : Bool
deriving DecidableEq, Repr

/-- Modelled from the spec: the `CachedMessage`/`From<Message>` pair is not
among the repository's files; the conversion snapshots the message fields. -/
structure CachedMessage where
  id : MessageId
  channel_id : ChannelId
  author : UserId
  content : String
  timestamp : String
  pinned : Bool
  tts : Bool
deriving DecidableEq, Repr

/-- Modelled from the spec: `From<Message> for CachedMessage`. -/
def CachedMessage.ofMessage (m : Message) : CachedMessage :=
  { id := m.id
    channel_id := m.channel_id
    author := m.author.id
    content := m.content
    timestamp := m.timestamp
    pinned := m.pinned
    tts := m.tts }

/-- `twilight_model::guild::Guild`: the scalar fields read by `cache_guild`
(`lib.rs`) plus the child collections it cascades over. The Rust child
collections are maps iterated as `.into_iter().map(|(_, v)| v)`; they appear
here directly as the lists of values that iteration yields. -/
structure Guild where
  id : GuildId
  afk_channel_id : Option ChannelId
  afk_timeout : Nat
  application_id : Option Nat
  banner : Option String
  channels : List GuildChannel
  default_message_notifications : Nat
  description : Option String
  discovery_splash : Option String
  embed_channel_id : Option ChannelId
  embed_enabled : Option Bool
  emojis : List Emoji
  explicit_content_filter : Nat
  features : List String
  icon : Option String
  joined_at : Option String
  large : Bool
  lazy : Option Bool
  max_members : Option Nat
  max_presences : Option Nat
  member_count : Option Nat
  members : List Member
  mfa_level : Nat
  name : String
  owner : Option Bool
  owner_id : UserId
  permissions : Option Nat
  preferred_locale : String
  premium_subscription_count : Option Nat
  premium_tier : Nat
  presences : List Presence
  region : String
  roles : List Role
  rules_channel_id : Option ChannelId
  splash : Option String
  system_channel_id : Option ChannelId
  system_channel_flags : Nat
  unavailable : Bool
  verification_level : Nat
  vanity_url_code : Option String
  voice_states : List VoiceState
  widget_channel_id : Option ChannelId
  widget_enabled : Option Bool
deriving DecidableEq, Repr

/-- `CachedGuild` with the fields assigned in `cache_guild` (`lib.rs`). -/
structure CachedGuild where
  id : GuildId
  afk_channel_id : Option ChannelId
  afk_timeout : Nat
  application_id : Option Nat
  banner : Option String
  default_message_notifications : Nat
  description : Option String
  discovery_splash : Option String
  embed_channel_id : Option ChannelId
  embed_enabled : Option Bool
  explicit_content_filter : Nat
  features : List String
  icon : Option String
  joined_at : Option String
  large : Bool
  lazy : Option Bool
  max_members : Option Nat
  max_presences : Option Nat
  member_count : Option Nat
  mfa_level : Nat
  name : String
  owner : Option Bool
  owner_id : UserId
  permissions : Option Nat
  preferred_locale : String
  premium_subscription_count : Option Nat
  premium_tier : Nat
  region : String
  rules_channel_id : Option ChannelId
  splash : Option String
  system_channel_id : Option ChannelId
  system_channel_flags : Nat
  unavailable : Bool
  verification_level : Nat
  vanity_url_code : Option String
  widget_channel_id : Option ChannelId
  widget_enabled : Option Bool
deriving DecidableEq, Repr

/-- The `CachedGuild { ... }` record built at the end of `cache_guild`. -/
def CachedGuild.ofGuild (g : Guild) : CachedGuild :=
  { id := g.id
    afk_channel_id := g.afk_channel_id
    afk_timeout := g.afk_timeout
    application_id := g.application_id
    banner := g.banner
    default_message_notifications := g.default_message_notifications
    description := g.description
    discovery_splash := g.discovery_splash
    embed_channel_id := g.embed_channel_id
    embed_enabled := g.embed_enabled
    explicit_content_filter := g.explicit_content_filter
    features := g.features
    icon := g.icon
    joined_at := g.joined_at
    large := g.large
    lazy := g.lazy
    max_members := g.max_members
    max_presences := g.max_presences
    member_count := g.member_count
    mfa_level := g.mfa_level
    name := g.name
    owner := g.owner
    owner_id := g.owner_id
    permissions := g.permissions
    preferred_locale := g.preferred_locale
    premium_subscription_count := g.premium_subscription_count
    premium_tier := g.premium_tier
    region := g.region
    rules_channel_id := g.rules_channel_id
    splash := g.splash
    system_channel_id := g.system_channel_id
    system_channel_flags := g.system_channel_flags
    unavailable := g.unavailable
    verification_level := g.verification_level
    vanity_url_code := g.vanity_url_code
    widget_channel_id := g.widget_channel_id
    widget_enabled := g.widget_enabled }

/-! ## Configuration and the event-type bitmask (`config.rs`) -/

namespace EventType

def BAN_ADD : Nat := 1
def BAN_REMOVE : Nat := 1 <<< 1
def CHANNEL_CREATE : Nat := 1 <<< 2
def CHANNEL_DELETE : Nat := 1 <<< 3
def CHANNEL_UPDATE : Nat := 1 <<< 4
def GUILD_CREATE : Nat := 1 <<< 5
def GUILD_DELETE : Nat := 1 <<< 6
def GUILD_EMOJIS_UPDATE : Nat := 1 <<< 7
def GUILD_INTEGRATIONS_UPDATE : Nat := 1 <<< 8
def GUILD_UPDATE : Nat := 1 <<< 9
def MEMBER_ADD : Nat := 1 <<< 10
def MEMBER_CHUNK : Nat := 1 <<< 11
def MEMBER_REMOVE : Nat := 1 <<< 12
def MEMBER_UPDATE : Nat := 1 <<< 13
def MESSAGE_CREATE : Nat := 1 <<< 14
def MESSAGE_DELETE : Nat := 1 <<< 15
def MESSAGE_DELETE_BULK : Nat := 1 <<< 16
def MESSAGE_UPDATE : Nat := 1 <<< 17
def PRESENCE_UPDATE : Nat := 1 <<< 18
def REACTION_ADD : Nat := 1 <<< 19
def REACTION_REMOVE : Nat := 1 <<< 20
def REACTION_REMOVE_ALL : Nat := 1 <<< 21
def READY : Nat := 1 <<< 22
def ROLE_CREATE : Nat := 1 <<< 23
def ROLE_DELETE : Nat := 1 <<< 24
def ROLE_UPDATE : Nat := 1 <<< 25
def TYPING_START : Nat := 1 <<< 26
def UNAVAILABLE_GUILD : Nat := 1 <<< 27
def UPDATE_VOICE_STATE : Nat := 1 <<< 28
def USER_UPDATE : Nat := 1 <<< 29
def VOICE_SERVER_UPDATE : Nat := 1 <<< 30
def VOICE_STATE_UPDATE : Nat := 1 <<< 31
def WEBHOOK_UPDATE : Nat := 1 <<< 32

/-- `EventType::all()`: every flag bit (0..=32) set. -/
def all : Nat := (1 <<< 33) - 1

/-- `bitflags`' `contains`: every bit of `other` is set in `self`. -/
def contains (self other : Nat) : Bool :=
  self &&& other == other

end EventType

/-- `Config` (`config.rs`). -/
structure Config where
  event_types : Nat
  message_cache_size : Nat
deriving DecidableEq, Repr

/-- `Config::default()`: all event types, 100 messages per channel. -/
def Config.default : Config :=
  { event_types := EventType.all, message_cache_size := 100 }

/-! ## Cache state (`InMemoryCacheRef`, `lib.rs`) -/

/-- The `GuildItem<T>` cell stored in `channels_guild`, `emojis`, `roles`. -/
structure GuildItem (T : Type) where
  data : T
  guild_id : GuildId
deriving DecidableEq, Repr

/-- `InMemoryCacheRef`: every index of the cache, plus the configuration. -/
structure CacheState where
  config : Config
  channels_guild : List (ChannelId × GuildItem GuildChannel)
  channels_private : List (ChannelId × PrivateChannel)
  current_user : Option CurrentUser
  emojis : List (EmojiId × GuildItem CachedEmoji)
  groups : List (ChannelId × Group)
  guilds : List (GuildId × CachedGuild)
  guild_channels : List (GuildId × List ChannelId)
  guild_emojis : List (GuildId × List EmojiId)
  guild_members : List (GuildId × List UserId)
  guild_presences : List (GuildId × List UserId)
  guild_roles : List (GuildId × List RoleId)
  members : List ((GuildId × UserId) × CachedMember)
  messages : List (ChannelId × List (MessageId × CachedMessage))
  presences : List ((GuildId × UserId) × CachedPresence)
  roles : List (RoleId × GuildItem Role)
  unavailable_guilds : List GuildId
  users : List (UserId × (User × List GuildId))
  voice_state_channels : List (ChannelId × List (GuildId × UserId))
  voice_state_guilds : List (GuildId × List UserId)
  voice_states : List ((GuildId × UserId) × VoiceState)
deriving DecidableEq, Repr

/-- A freshly constructed cache (`InMemoryCache::new_with_config`): empty
indices, the given configuration. -/
def emptyCache (cfg : Config) : CacheState :=
  { config := cfg
    channels_guild := []
    channels_private := []
    current_user := none
    emojis := []
    groups := []
    guilds := []
    guild_channels := []
    guild_emojis := []
    guild_members := []
    guild_presences := []
    guild_roles := []
    members := []
    messages := []
    presences := []
    roles := []
    unavailable_guilds := []
    users := []
    voice_state_channels := []
    voice_state_guilds := []
    voice_states := [] }

/-! ## Upsert primitives (`lib.rs`) -/

/-- `upsert_item(map, k, v)`: when the stored value compares equal to `v`,
return the existing handle and leave the map untouched; otherwise install `v`.
Returns the updated map together with the returned handle. -/
def upsert_item {K V : Type} [DecidableEq K] [DecidableEq V]
    (map : List (K × V)) (k : K) (v : V) : List (K × V) × V :=
  match alookup map k with
  | some v0 => if v0 = v then (map, v0) else (insertRep map k v, v)
  | none => (insertRep map k v, v)

/-- `upsert_guild_item(map, guild_id, k, v)`: like `upsert_item` but the cell
carries the owning guild; on a structural-equality match the stored cell (and
its `guild_id`) is left untouched. -/
def upsert_guild_item {K V : Type} [DecidableEq K] [DecidableEq V]
    (map : List (K × GuildItem V)) (guild_id : GuildId) (k : K) (v : V) :
    List (K × GuildItem V) × V :=
  match alookup map k with
  | some it =>
    if it.data = v then (map, it.data)
    else (insertRep map k { data := v, guild_id := guild_id }, v)
  | none => (insertRep map k { data := v, guild_id := guild_id }, v)

/-! ## `cache_*` helpers (`lib.rs`) -/

/-- `cache_current_user`: install the new record (the `Arc::get_mut` in-place
swap and the fresh-`Arc` path store the same value). -/
def cache_current_user (s : CacheState) (cu : CurrentUser) : CacheState :=
  { s with current_user := some cu }

/-- `cache_user(user, guild_id)`: on a structurally equal stored record, only
add the guild to the user's guild set; otherwise install the new record with
the set re-initialized to just this guild. -/
def cache_user (s : CacheState) (user : User) (guild_id : GuildId) : CacheState :=
  match alookup s.users user.id with
  | some (u0, gs) =>
    if u0 = user then
      { s with users := insertRep s.users user.id (u0, insertSet gs guild_id) }
    else
      { s with users := insertRep s.users user.id (user, [guild_id]) }
  | none => { s with users := insertRep s.users user.id (user, [guild_id]) }

/-- `cache_member(guild_id, member)`: short-circuit on a structurally equal
stored member; otherwise cache the user and install the snapshot. -/
def cache_member (s : CacheState) (guild_id : GuildId) (member : Member) : CacheState :=
  let id := (guild_id, member.user.id)
  match alookup s.members id with
  | some m =>
    if m.eqMember member then s
    else
      let s1 := cache_user s member.user guild_id
      { s1 with members := insertRep s1.members id (CachedMember.ofMember guild_id member) }
  | none =>
    let s1 := cache_user s member.user guild_id
    { s1 with members := insertRep s1.members id (CachedMember.ofMember guild_id member) }

/-- `cache_members`: cache each member of the collection in turn. -/
def cache_members (s : CacheState) (guild_id : GuildId) (members : List Member) : CacheState :=
  members.foldl (fun acc m => cache_member acc guild_id m) s

/-- `cache_guild_channel(guild_id, channel)`: attach the owning guild to the
channel, add its id to `guild_channels[guild_id]`, then upsert into
`channels_guild`. -/
def cache_guild_channel (s : CacheState) (guild_id : GuildId) (channel : GuildChannel) :
    CacheState :=
  let channel := channel.withGuildId guild_id
  let id := channel.id
  let ids := (alookup s.guild_channels guild_id).getD []
  let s := { s with guild_channels := insertRep s.guild_channels guild_id (insertSet ids id) }
  { s with channels_guild := (upsert_guild_item s.channels_guild guild_id id channel).1 }

/-- `cache_guild_channels`. -/
def cache_guild_channels (s : CacheState) (guild_id : GuildId)
    (channels : List GuildChannel) : CacheState :=
  channels.foldl (fun acc c => cache_guild_channel acc guild_id c) s

/-- `cache_emoji(guild_id, emoji)`: short-circuit on equality, otherwise cache
the creator user (when present) and install the snapshot. -/
def cache_emoji (s : CacheState) (guild_id : GuildId) (emoji : Emoji) : CacheState :=
  let same : Bool := match alookup s.emojis emoji.id with
    | some e =>
      e.data.id = emoji.id && e.data.animated = emoji.animated &&
        e.data.managed = emoji.managed && e.data.name = emoji.name &&
        e.data.require_colons = emoji.require_colons && e.data.roles = emoji.roles &&
        e.data.user = emoji.user && e.data.available = emoji.available
    | none => false
  if same then s
  else
    let s1 := match emoji.user with
      | some u => cache_user s u guild_id
      | none => s
    let cached : CachedEmoji :=
      { id := emoji.id
        animated := emoji.animated
        name := emoji.name
        managed := emoji.managed
        require_colons := emoji.require_colons
        roles := emoji.roles
        user := emoji.user
        available := emoji.available }
    { s1 with emojis := insertRep s1.emojis cached.id { data := cached, guild_id := guild_id } }

/-- `cache_emojis`. -/
def cache_emojis (s : CacheState) (guild_id : GuildId) (emojis : List Emoji) : CacheState :=
  emojis.foldl (fun acc e => cache_emoji acc guild_id e) s

/-- `cache_presence(guild_id, presence)`: short-circuit on equality, otherwise
install the converted snapshot. -/
def cache_presence (s : CacheState) (guild_id : GuildId) (presence : Presence) : CacheState :=
  let k := (guild_id, presence_user_id presence.user)
  match alookup s.presences k with
  | some p =>
    if p = CachedPresence.ofPresence presence then s
    else { s with presences := insertRep s.presences k (CachedPresence.ofPresence presence) }
  | none => { s with presences := insertRep s.presences k (CachedPresence.ofPresence presence) }

/-- `cache_presences`. -/
def cache_presences (s : CacheState) (guild_id : GuildId) (ps : List Presence) : CacheState :=
  ps.foldl (fun acc p => cache_presence acc guild_id p) s

/-- `cache_role`. -/
def cache_role (s : CacheState) (guild_id : GuildId) (role : Role) : CacheState :=
  { s with roles := (upsert_guild_item s.roles guild_id role.id role).1 }

/-- `cache_roles`. -/
def cache_roles (s : CacheState) (guild_id : GuildId) (roles : List Role) : CacheState :=
  roles.foldl (fun acc r => cache_role acc guild_id r) s

/-- `cache_private_channel`. -/
def cache_private_channel (s : CacheState) (pc : PrivateChannel) : CacheState :=
  match alookup s.channels_private pc.id with
  | some c => if c = pc then s
    else { s with channels_private := insertRep s.channels_private pc.id pc }
  | none => { s with channels_private := insertRep s.channels_private pc.id pc }

/-- `cache_group`. -/
def cache_group (s : CacheState) (group : Group) : CacheState :=
  { s with groups := (upsert_item s.groups group.id group).1 }

/-- `cache_voice_state(vs)`: the voice-state coordinator of §4.7. An event
without a guild id is ignored; an existing state's channel mapping is removed
(with empty-key cleanup); a state without a channel is a leave (remove from
guild set with cleanup, drop the state); otherwise insert the state and both
reverse entries. -/
def cache_voice_state (s : CacheState) (vs : VoiceState) : CacheState :=
  match vs.guild_id with
  | none => s
  | some guild_id =>
    let user_id := vs.user_id
    let s1 :=
      match alookup s.voice_states (guild_id, user_id) with
      | some voice_state =>
        match voice_state.channel_id with
        | some channel_id =>
          match alookup s.voice_state_channels channel_id with
          | some cvs =>
            let cvs1 := eraseSet cvs (guild_id, user_id)
            if cvs1.isEmpty then
              { s with voice_state_channels := eraseKey s.voice_state_channels channel_id }
            else
              { s with voice_state_channels := insertRep s.voice_state_channels channel_id cvs1 }
          | none => s
        | none => s
      | none => s
    match vs.channel_id with
    | none =>
      let s2 :=
        match alookup s1.voice_state_guilds guild_id with
        | some gu =>
          let gu1 := eraseSet gu user_id
          if gu1.isEmpty then
            { s1 with voice_state_guilds := eraseKey s1.voice_state_guilds guild_id }
          else
            { s1 with voice_state_guilds := insertRep s1.voice_state_guilds guild_id gu1 }
        | none => s1
      { s2 with voice_states := eraseKey s2.voice_states (guild_id, user_id) }
    | some channel_id =>
      let s2 := { s1 with voice_states := insertRep s1.voice_states (guild_id, user_id) vs }
      let gu := (alookup s2.voice_state_guilds guild_id).getD []
      let s3 := { s2 with
        voice_state_guilds := insertRep s2.voice_state_guilds guild_id (insertSet gu user_id) }
      let cvs := (alookup s3.voice_state_channels channel_id).getD []
      { s3 with voice_state_channels :=
          insertRep s3.voice_state_channels channel_id (insertSet cvs (guild_id, user_id)) }

/-- `cache_voice_states`. -/
def cache_voice_states (s : CacheState) (vss : List VoiceState) : CacheState :=
  vss.foldl cache_voice_state s

/-- `cache_guild(guild)`: eagerly initialize the per-guild reverse indices,
cascade every child collection, drop the id from `unavailable_guilds`, then
install the guild record. -/
def cache_guild (s : CacheState) (guild : Guild) : CacheState :=
  let s := { s with
      guild_channels := insertRep s.guild_channels guild.id [],
      guild_emojis := insertRep s.guild_emojis guild.id [],
      guild_members := insertRep s.guild_members guild.id [],
      guild_presences := insertRep s.guild_presences guild.id [],
      guild_roles := insertRep s.guild_roles guild.id [],
      voice_state_guilds := insertRep s.voice_state_guilds guild.id [] }
  let s := cache_guild_channels s guild.id guild.channels
  let s := cache_emojis s guild.id guild.emojis
  let s := cache_members s guild.id guild.members
  let s := cache_presences s guild.id guild.presences
  let s := cache_roles s guild.id guild.roles
  let s := cache_voice_states s guild.voice_states
  let s := { s with unavailable_guilds := eraseSet s.unavailable_guilds guild.id }
  { s with guilds := insertRep s.guilds guild.id (CachedGuild.ofGuild guild) }

/-- `delete_group`. -/
def delete_group (s : CacheState) (channel_id : ChannelId) : CacheState :=
  { s with groups := eraseKey s.groups channel_id }

/-- `unavailable_guild` (`lib.rs`): mark known-but-offline. -/
def unavailable_guild (s : CacheState) (guild_id : GuildId) : CacheState :=
  let s := { s with unavailable_guilds := insertSet s.unavailable_guilds guild_id }
  { s with guilds := eraseKey s.guilds guild_id }

/-- `delete_guild_channel`: remove the channel and its reverse-index entry. -/
def delete_guild_channel (s : CacheState) (channel_id : ChannelId) : CacheState :=
  match alookup s.channels_guild channel_id with
  | none => s
  | some item =>
    let s := { s with channels_guild := eraseKey s.channels_guild channel_id }
    match alookup s.guild_channels item.guild_id with
    | some ids =>
      { s with guild_channels := insertRep s.guild_channels item.guild_id (eraseSet ids channel_id) }
    | none => s

/-- `delete_role`: remove the role, then its id from the owning guild's set
(the owner is read from the stored cell). -/
def delete_role (s : CacheState) (role_id : RoleId) : CacheState :=
  match alookup s.roles role_id with
  | none => s
  | some role =>
    let s := { s with roles := eraseKey s.roles role_id }
    match alookup s.guild_roles role.guild_id with
    | some ids =>
      { s with guild_roles := insertRep s.guild_roles role.guild_id (eraseSet ids role_id) }
    | none => s

/-- `clear()` (`lib.rs` lines 412-425): the indices the source actually
drops — and only those. -/
def CacheState.clear (s : CacheState) : CacheState :=
  { s with
      channels_guild := [],
      current_user := none,
      emojis := [],
      guilds := [],
      presences := [],
      roles := [],
      users := [],
      voice_state_guilds := [] }

/-! ## Query façade (`lib.rs`) -/

/-- `guild_channel(channel_id)`. -/
def CacheState.guild_channel (s : CacheState) (channel_id : ChannelId) : Option GuildChannel :=
  (alookup s.channels_guild channel_id).map GuildItem.data

/-- `current_user()`. -/
def CacheState.currentUser (s : CacheState) : Option CurrentUser :=
  s.current_user

/-- `emoji(emoji_id)`. -/
def CacheState.emoji (s : CacheState) (emoji_id : EmojiId) : Option CachedEmoji :=
  (alookup s.emojis emoji_id).map GuildItem.data

/-- `group(channel_id)`. -/
def CacheState.group (s : CacheState) (channel_id : ChannelId) : Option Group :=
  alookup s.groups channel_id

/-- `guild(guild_id)`. -/
def CacheState.guild (s : CacheState) (guild_id : GuildId) : Option CachedGuild :=
  alookup s.guilds guild_id

/-- `member(guild_id, user_id)`. -/
def CacheState.member (s : CacheState) (guild_id : GuildId) (user_id : UserId) :
    Option CachedMember :=
  alookup s.members (guild_id, user_id)

/-- `message(channel_id, message_id)`. -/
def CacheState.message (s : CacheState) (channel_id : ChannelId) (message_id : MessageId) :
    Option CachedMessage :=
  match alookup s.messages channel_id with
  | none => none
  | some channel => alookup channel message_id

/-- `presence(guild_id, user_id)`. -/
def CacheState.presence (s : CacheState) (guild_id : GuildId) (user_id : UserId) :
    Option CachedPresence :=
  alookup s.presences (guild_id, user_id)

/-- `private_channel(channel_id)`. -/
def CacheState.private_channel (s : CacheState) (channel_id : ChannelId) :
    Option PrivateChannel :=
  alookup s.channels_private channel_id

/-- `role(role_id)`. -/
def CacheState.role (s : CacheState) (role_id : RoleId) : Option Role :=
  (alookup s.roles role_id).map GuildItem.data

/-- `user(user_id)`. -/
def CacheState.user (s : CacheState) (user_id : UserId) : Option User :=
  (alookup s.users user_id).map Prod.fst

/-- `voice_state(user_id, guild_id)`. -/
def CacheState.voice_state (s : CacheState) (user_id : UserId) (guild_id : GuildId) :
    Option VoiceState :=
  alookup s.voice_states (guild_id, user_id)

/-- `voice_channel_states(channel_id)`. -/
def CacheState.voice_channel_states (s : CacheState) (channel_id : ChannelId) :
    Option (List VoiceState) :=
  match alookup s.voice_state_channels channel_id with
  | none => none
  | some keys => some (keys.filterMap (fun key => alookup s.voice_states key))

/-! ## Event payloads and per-event handlers (`updates.rs`)

Every handler's first action is the `guard` containment check against the
configured event-type bitmask. -/

/-- `guard(this, event_type)`. -/
def guardOn (s : CacheState) (event_type : Nat) : Bool :=
  EventType.contains s.config.event_types event_type

/-- `UpdateCache for ChannelCreate`. -/
def channelCreateUpdate (c : Channel) (s : CacheState) : CacheState :=
  if ¬ guardOn s EventType.CHANNEL_CREATE then s
  else
    match c with
    | .group gc => { s with groups := (upsert_item s.groups gc.id gc).1 }
    | .guild gc =>
      match gc.guildId with
      | some gid => cache_guild_channel s gid gc
      | none => s
    | .priv pc => cache_private_channel s pc

/-- `UpdateCache for ChannelUpdate`. -/
def channelUpdateUpdate (c : Channel) (s : CacheState) : CacheState :=
  if ¬ guardOn s EventType.CHANNEL_UPDATE then s
  else
    match c with
    | .group gc => cache_group s gc
    | .guild gc =>
      match gc.guildId with
      | some gid => cache_guild_channel s gid gc
      | none => s
    | .priv pc => cache_private_channel s pc

/-- `UpdateCache for ChannelDelete`. -/
def channelDeleteUpdate (c : Channel) (s : CacheState) : CacheState :=
  if ¬ guardOn s EventType.CHANNEL_DELETE then s
  else
    match c with
    | .group gc => delete_group s gc.id
    | .guild gc => delete_guild_channel s gc.id
    | .priv pc => { s with channels_private := eraseKey s.channels_private pc.id }

/-- `UpdateCache for GuildCreate`. -/
def guildCreateUpdate (g : Guild) (s : CacheState) : CacheState :=
  if ¬ guardOn s EventType.GUILD_CREATE then s
  else cache_guild s g

/-- `UpdateCache for MemberAdd` (the payload wraps the member; the guild comes
from the member record). -/
def memberAddUpdate (m : Member) (s : CacheState) : CacheState :=
  if ¬ guardOn s EventType.MEMBER_ADD then s
  else
    let s := cache_member s m.guild_id m
    let ids := (alookup s.guild_members m.guild_id).getD []
    { s with guild_members := insertRep s.guild_members m.guild_id (insertSet ids m.user.id) }

/-- `UpdateCache for MemberChunk` (`members` is keyed by user id). -/
def memberChunkUpdate (guild_id : GuildId) (members : List (UserId × Member))
    (s : CacheState) : CacheState :=
  if ¬ guardOn s EventType.MEMBER_CHUNK then s
  else if members.isEmpty then s
  else
    let s := cache_members s guild_id (members.map Prod.snd)
    let ids := (alookup s.guild_members guild_id).getD []
    let ids := (members.map Prod.fst).foldl insertSet ids
    { s with guild_members := insertRep s.guild_members guild_id ids }

/-- `UpdateCache for MemberRemove`: drop the member entry and the reverse-index
entry. (This handler touches no other index.) -/
def memberRemoveUpdate (guild_id : GuildId) (user : User) (s : CacheState) : CacheState :=
  if ¬ guardOn s EventType.MEMBER_REMOVE then s
  else
    let s := { s with members := eraseKey s.members (guild_id, user.id) }
    match alookup s.guild_members guild_id with
    | some ids =>
      { s with guild_members := insertRep s.guild_members guild_id (eraseSet ids user.id) }
    | none => s

/-- `UpdateCache for MessageCreate`: evict the iterator-last entry when the
per-channel map is larger than the configured cap, then insert. -/
def messageCreateUpdate (m : Message) (s : CacheState) : CacheState :=
  if ¬ guardOn s EventType.MESSAGE_CREATE then s
  else
    let channel := (alookup s.messages m.channel_id).getD []
    let channel :=
      if channel.length > s.config.message_cache_size then
        match channel.getLast? with
        | some kv => btRemove channel kv.1
        | none => channel
      else channel
    let channel := btInsert channel m.id (CachedMessage.ofMessage m)
    { s with messages := insertRep s.messages m.channel_id channel }

/-- `UpdateCache for MessageDelete`. -/
def messageDeleteUpdate (channel_id : ChannelId) (id : MessageId) (s : CacheState) :
    CacheState :=
  if ¬ guardOn s EventType.MESSAGE_DELETE then s
  else
    let channel := (alookup s.messages channel_id).getD []
    { s with messages := insertRep s.messages channel_id (btRemove channel id) }

/-- `UpdateCache for MessageDeleteBulk`. -/
def messageDeleteBulkUpdate (channel_id : ChannelId) (ids : List MessageId)
    (s : CacheState) : CacheState :=
  if ¬ guardOn s EventType.MESSAGE_DELETE_BULK then s
  else
    let channel := (alookup s.messages channel_id).getD []
    { s with messages := insertRep s.messages channel_id (ids.foldl btRemove channel) }

/-- `UpdateCache for UnavailableGuild`. -/
def unavailableGuildUpdate (id : GuildId) (s : CacheState) : CacheState :=
  if ¬ guardOn s EventType.UNAVAILABLE_GUILD then s
  else
    let s := { s with guilds := eraseKey s.guilds id }
    { s with unavailable_guilds := insertSet s.unavailable_guilds id }

/-- `UpdateCache for VoiceStateUpdate`. -/
def voiceStateUpdateUpdate (vs : VoiceState) (s : CacheState) : CacheState :=
  if ¬ guardOn s EventType.VOICE_STATE_UPDATE then s
  else cache_voice_state s vs

/-- The gateway events whose handlers are embedded here (`Event` variants of
`updates.rs` that mutate the cache and are exercised by the claims). -/
inductive Event where
  | channelCreate (c : Channel)
  | channelDelete (c : Channel)
  | channelUpdate (c : Channel)
  | guildCreate (g : Guild)
  | memberAdd (m : Member)
  | memberChunk (guild_id : GuildId) (members : List (UserId × Member))
  | memberRemove (guild_id : GuildId) (user : User)
  | messageCreate (m : Message)
  | messageDelete (channel_id : ChannelId) (id : MessageId)
  | messageDeleteBulk (channel_id : ChannelId) (ids : List MessageId)
  | unavailableGuild (id : GuildId)
  | voiceStateUpdate (vs : VoiceState)
deriving Repr

/-- The event-type category bit of each event (§6.2). -/
def Event.eventType : Event → Nat
  | .channelCreate _ => EventType.CHANNEL_CREATE
  | .channelDelete _ => EventType.CHANNEL_DELETE
  | .channelUpdate _ => EventType.CHANNEL_UPDATE
  | .guildCreate _ => EventType.GUILD_CREATE
  | .memberAdd _ => EventType.MEMBER_ADD
  | .memberChunk _ _ => EventType.MEMBER_CHUNK
  | .memberRemove _ _ => EventType.MEMBER_REMOVE
  | .messageCreate _ => EventType.MESSAGE_CREATE
  | .messageDelete _ _ => EventType.MESSAGE_DELETE
  | .messageDeleteBulk _ _ => EventType.MESSAGE_DELETE_BULK
  | .unavailableGuild _ => EventType.UNAVAILABLE_GUILD
  | .voiceStateUpdate _ => EventType.VOICE_STATE_UPDATE

/-- `InMemoryCache::update`: dispatch by event variant. -/
def Event.update (e : Event) (s : CacheState) : CacheState :=
  match e with
  | .channelCreate c => channelCreateUpdate c s
  | .channelDelete c => channelDeleteUpdate c s
  | .channelUpdate c => channelUpdateUpdate c s
  | .guildCreate g => guildCreateUpdate g s
  | .memberAdd m => memberAddUpdate m s
  | .memberChunk gid ms => memberChunkUpdate gid ms s
  | .memberRemove gid u => memberRemoveUpdate gid u s
  | .messageCreate m => messageCreateUpdate m s
  | .messageDelete cid id => messageDeleteUpdate cid id s
  | .messageDeleteBulk cid ids => messageDeleteBulkUpdate cid ids s
  | .unavailableGuild id => unavailableGuildUpdate id s
  | .voiceStateUpdate vs => voiceStateUpdateUpdate vs s

/-- A stream of gateway events applied in source order. -/
def applyEvents (es : List Event) (s : CacheState) : CacheState :=
  es.foldl (fun acc e => e.update acc) s

/-! ## Concrete fixtures (mirroring the constructors in `lib.rs`'s tests) -/


/-- The `user(id)` test constructor of `lib.rs`, with a choosable name so that
structurally different records for the same id can be produced. -/
def testUser (id : UserId) (name : String) : User :=
  { avatar := none
    bot := false
    discriminator := "0001"
    email := none
    flags := none
    id := id
    locale := none
    mfa_enabled := none
    name := name
    premium_type := none
    public_flags := none
    system := none
    verified := none }

/-- A member record for `user` in `guild_id` with default flags. -/
def testMember (guild_id : GuildId) (user : User) : Member :=
  { deaf := false
    guild_id := guild_id
    hoisted_role := none
    joined_at := none
    mute := false
    nick := none
    premium_since := none
    roles := []
    user := user }

/-- The `voice_state(guild_id, channel_id, user_id)` test constructor of
`lib.rs`. -/
def testVoiceState (guild_id : GuildId) (channel_id : Option ChannelId) (user_id : UserId) :
    VoiceState :=
  { channel_id := channel_id
    deaf := false
    guild_id := some guild_id
    member := none
    mute := true
    self_deaf := false
    self_mute := true
    self_stream := false
    session_id := "a"
    suppress := false
    token := none
    user_id := user_id }

/-- A message with the given channel and id. -/
def testMessage (channel_id : ChannelId) (id : MessageId) : Message :=
  { id := id
    channel_id := channel_id
    author := testUser 1 "author"
    content := "hello"
    timestamp := "now"
    pinned := false
    tts := false }

/-- A guild with the given id and no children (the guild of
`test_guild_create_channels_have_guild_ids`, with empty child maps). -/
def testGuild (id : GuildId) : Guild :=
  { id := id
    afk_channel_id := none
    afk_timeout := 300
    application_id := none
    banner := none
    channels := []
    default_message_notifications := 1
    description := none
    discovery_splash := none
    embed_channel_id := none
    embed_enabled := none
    emojis := []
    explicit_content_filter := 2
    features := []
    icon := none
    joined_at := some ""
    large := false
    lazy := some true
    max_members := some 50
    max_presences := some 100
    member_count := some 25
    members := []
    mfa_level := 1
    name := "this is a guild"
    owner := some false
    owner_id := 456
    permissions := some 2048
    preferred_locale := "en-GB"
    premium_subscription_count := some 0
    premium_tier := 0
    presences := []
    region := "us-east"
    roles := []
    rules_channel_id := none
    splash := none
    system_channel_id := none
    system_channel_flags := 1
    unavailable := false
    verification_level := 4
    vanity_url_code := none
    voice_states := []
    widget_channel_id := none
    widget_enabled := none }

/-- The text channel of `test_guild_create_channels_have_guild_ids`, with a
choosable guild id field. -/
def testTextChannel (id : ChannelId) (guild_id : Option GuildId) : TextChannel :=
  { id := id
    guild_id := guild_id
    kind := 0
    last_message_id := none
    last_pin_timestamp := none
    name := "guild channel with no guild id"
    nsfw := true
    permission_overwrites := []
    parent_id := none
    position := 1
    rate_limit_per_user := none
    topic := none }

/-- A configuration with every event type and the given message cap
(`InMemoryCache::builder().message_cache_size(n)`). -/
def capConfig (n : Nat) : Config :=
  { event_types := EventType.all, message_cache_size := n }

/-- A configuration whose event-type mask is empty: every guarded handler
must refuse to act. -/
def noEventsConfig : Config :=
  { event_types := 0, message_cache_size := 100 }

/-- Scenario S5 of the spec: cap 2, messages 100/101/102 created in
channel 5. -/
def s5_state : CacheState :=
  applyEvents
    [Event.messageCreate (testMessage 5 100),
     Event.messageCreate (testMessage 5 101),
     Event.messageCreate (testMessage 5 102)]
    (emptyCache (capConfig 2))

/-- Scenario S2 of the spec up to the first member-remove: user 2 cached in
guilds 1 and 3, then `MemberRemove(guild 3, user 2)` is processed. -/
def s2_state : CacheState :=
  applyEvents
    [Event.memberAdd (testMember 1 (testUser 2 "user")),
     Event.memberAdd (testMember 3 (testUser 2 "user")),
     Event.memberRemove 3 (testUser 2 "user")]
    (emptyCache Config.default)

/-- A cache holding an unavailable guild, a member, and a message, about to
be cleared. -/
def preClearState : CacheState :=
  applyEvents
    [Event.unavailableGuild 7,
     Event.memberAdd (testMember 1 (testUser 2 "user")),
     Event.messageCreate (testMessage 5 100)]
    (emptyCache Config.default)

/-- User 2 cached in guilds 1 and 3 with record "a", then a member-add in
guild 1 carrying the structurally changed record "b". -/
def changedUserState : CacheState :=
  applyEvents
    [Event.memberAdd (testMember 1 (testUser 2 "a")),
     Event.memberAdd (testMember 3 (testUser 2 "a")),
     Event.memberAdd (testMember 1 (testUser 2 "b"))]
    (emptyCache Config.default)

/-- A guild-create for a guild carrying no voice states: the eager
initialization leaves `voice_state_guilds[1]` mapped to the empty set. -/
def emptyGuildState : CacheState :=
  (Event.guildCreate (testGuild 1)).update (emptyCache Config.default)

/-! ## Invariant predicates (spec §3 and §8) -/

/-- I6/P7 relaxed by one: every channel retains at most
`message_cache_size + 1` messages (the handler only evicts when the size
already exceeds the cap). -/
def msgBound (s : CacheState) : Prop :=
  ∀ c, ((alookup s.messages c).getD []).length ≤ s.config.message_cache_size + 1

/-- I3/P4: a user is stored iff some member references it, and the stored
guild set is exactly the set of guilds whose member table contains the user. -/
def usersInv (s : CacheState) : Prop :=
  (∀ uid u gs, alookup s.users uid = some (u, gs) →
      gs ≠ [] ∧ ∀ g, g ∈ gs ↔ (alookup s.members (g, uid)).isSome = true) ∧
  (∀ g uid, (alookup s.members (g, uid)).isSome = true →
      (alookup s.users uid).isSome = true)

/-- The member's user record agrees with what the cache stores (if anything):
under this hypothesis `cache_user` takes its equality branch. -/
def recordOk (s : CacheState) (m : Member) : Prop :=
  ∀ u0 gs, alookup s.users m.user.id = some (u0, gs) → u0 = m.user

/-- I5/P6 for `voice_state_channels`: no stored set is empty. -/
def chanNonempty (s : CacheState) : Prop :=
  ∀ c S, alookup s.voice_state_channels c = some S → S ≠ []

/-- I5/P6 for `voice_state_guilds`: no stored set is empty. -/
def guildsNonempty (s : CacheState) : Prop :=
  ∀ g S, alookup s.voice_state_guilds g = some S → S ≠ []

/-- `t` keeps `s`'s configuration and message store (true of every helper
other than the message handlers). -/
def sameCfgMsgs (s t : CacheState) : Prop :=
  t.config = s.config ∧ t.messages = s.messages

/-- `t` keeps `s`'s two reverse voice indices (true of every helper other
than the voice-state coordinator, guild-create and clear). -/
def sameVoice (s t : CacheState) : Prop :=
  t.voice_state_channels = s.voice_state_channels ∧
  t.voice_state_guilds = s.voice_state_guilds

/-! ## Lemmas about the container primitives -/

@[simp]
theorem alookup_nil {K V : Type} [DecidableEq K] (k : K) :
    alookup ([] : List (K × V)) k = none := rfl

theorem alookup_cons {K V : Type} [DecidableEq K] (k1 : K) (v1 : V) (t : List (K × V)) (k : K) :
    alookup ((k1, v1) :: t) k = if k = k1 then some v1 else alookup t k := rfl

theorem eraseKey_cons {K V : Type} [DecidableEq K] (k1 : K) (v1 : V) (t : List (K × V)) (k : K) :
    eraseKey ((k1, v1) :: t) k =
      if k1 = k then eraseKey t k else (k1, v1) :: eraseKey t k := rfl

theorem eraseSet_cons {A : Type} [DecidableEq A] (x : A) (t : List A) (a : A) :
    eraseSet (x :: t) a = if x = a then eraseSet t a else x :: eraseSet t a := rfl

theorem btRemove_cons {V : Type} (k1 : Nat) (v1 : V) (t : List (Nat × V)) (k : Nat) :
    btRemove ((k1, v1) :: t) k =
      if k1 = k then btRemove t k else (k1, v1) :: btRemove t k := rfl

theorem alookup_insertRep {K V : Type} [DecidableEq K] (l : List (K × V)) (k : K) (v : V)
    (k0 : K) :
    alookup (insertRep l k v) k0 = if k0 = k then some v else alookup l k0 := by
  induction l with
  | nil => simp [insertRep, alookup_cons]
  | cons p t ih =>
    obtain ⟨k1, v1⟩ := p
    by_cases hk : k = k1
    · subst hk
      by_cases h0 : k0 = k <;> simp [insertRep, alookup_cons, h0]
    · by_cases h0 : k0 = k1
      · subst h0
        have hne : k0 ≠ k := fun h => hk h.symm
        simp [insertRep, hk, alookup_cons, hne]
      · simp [insertRep, hk, alookup_cons, h0, ih]

theorem insertRep_of_lookup_eq {K V : Type} [DecidableEq K] (l : List (K × V)) (k : K) (v : V)
    (h : alookup l k = some v) : insertRep l k v = l := by
  induction l with
  | nil => simp [alookup] at h
  | cons p t ih =>
    obtain ⟨k1, v1⟩ := p
    by_cases hk : k = k1
    · subst hk
      rw [alookup_cons, if_pos rfl] at h
      simp only [Option.some.injEq] at h
      simp [insertRep, h]
    · rw [alookup_cons, if_neg hk] at h
      simp [insertRep, if_neg hk, ih h]

theorem alookup_eraseKey {K V : Type} [DecidableEq K] (l : List (K × V)) (k : K) (k0 : K) :
    alookup (eraseKey l k) k0 = if k0 = k then none else alookup l k0 := by
  induction l with
  | nil => simp [eraseKey]
  | cons p t ih =>
    obtain ⟨k1, v1⟩ := p
    by_cases hk : k1 = k
    · subst hk
      rw [eraseKey_cons, if_pos rfl, ih]
      by_cases h0 : k0 = k1 <;> simp [alookup_cons, h0]
    · rw [eraseKey_cons, if_neg hk]
      by_cases h0 : k0 = k1
      · subst h0
        have hne : k0 ≠ k := hk
        simp [alookup_cons, hne]
      · simp [alookup_cons, h0, ih]

theorem mem_insertSet {A : Type} [DecidableEq A] (l : List A) (a a0 : A) :
    a0 ∈ insertSet l a ↔ a0 = a ∨ a0 ∈ l := by
  unfold insertSet
  by_cases h : a ∈ l
  · simp only [if_pos h]
    constructor
    · exact Or.inr
    · rintro (rfl | h0)
      · exact h
      · exact h0
  · simp [if_neg h]

theorem insertSet_ne_nil {A : Type} [DecidableEq A] (l : List A) (a : A) :
    insertSet l a ≠ [] :=
  List.ne_nil_of_mem ((mem_insertSet l a a).mpr (Or.inl rfl))

theorem insertSet_of_mem {A : Type} [DecidableEq A] (l : List A) (a : A) (h : a ∈ l) :
    insertSet l a = l := by
  simp [insertSet, h]

theorem mem_eraseSet {A : Type} [DecidableEq A] (l : List A) (a a0 : A) :
    a0 ∈ eraseSet l a ↔ a0 ∈ l ∧ a0 ≠ a := by
  induction l with
  | nil => simp [eraseSet]
  | cons x t ih =>
    by_cases hx : x = a
    · subst hx
      rw [eraseSet_cons, if_pos rfl, ih]
      simp only [List.mem_cons]
      constructor
      · rintro ⟨h1, h2⟩; exact ⟨Or.inr h1, h2⟩
      · rintro ⟨h1 | h1, h2⟩
        · exact absurd h1 h2
        · exact ⟨h1, h2⟩
    · rw [eraseSet_cons, if_neg hx]
      simp only [List.mem_cons, ih]
      constructor
      · rintro (rfl | ⟨h1, h2⟩)
        · exact ⟨Or.inl rfl, hx⟩
        · exact ⟨Or.inr h1, h2⟩
      · rintro ⟨rfl | h1, h2⟩
        · exact Or.inl rfl
        · exact Or.inr ⟨h1, h2⟩

theorem eraseSet_of_not_mem {A : Type} [DecidableEq A] (l : List A) (a : A) (h : a ∉ l) :
    eraseSet l a = l := by
  induction l with
  | nil => rfl
  | cons x t ih =>
    simp only [List.mem_cons, not_or] at h
    have hx : x ≠ a := fun he => h.1 he.symm
    simp [eraseSet, hx, ih h.2]

theorem eraseSet_sublist {A : Type} [DecidableEq A] (l : List A) (a : A) :
    (eraseSet l a).Sublist l := by
  induction l with
  | nil => simp [eraseSet]
  | cons x t ih =>
    by_cases hx : x = a
    · simp only [eraseSet, if_pos hx]
      exact ih.cons x
    · simp only [eraseSet, if_neg hx]
      exact ih.cons₂ x

theorem keysOf_btInsert {V : Type} (l : List (Nat × V)) (k : Nat) (v : V) (k0 : Nat) :
    k0 ∈ keysOf (btInsert l k v) ↔ k0 = k ∨ k0 ∈ keysOf l := by
  induction l with
  | nil => simp [btInsert, keysOf]
  | cons p t ih =>
    obtain ⟨k1, v1⟩ := p
    unfold btInsert
    by_cases h1 : k < k1
    · simp [if_pos h1, keysOf]
    · by_cases h2 : k = k1
      · subst h2
        rw [if_neg h1, if_pos rfl]
        simp only [keysOf, List.map_cons, List.mem_cons]
        tauto
      · simp only [if_neg h1, if_neg h2]
        simp only [keysOf, List.map_cons, List.mem_cons] at ih ⊢
        tauto

theorem length_btInsert_le {V : Type} (l : List (Nat × V)) (k : Nat) (v : V) :
    (btInsert l k v).length ≤ l.length + 1 := by
  induction l with
  | nil => simp [btInsert]
  | cons p t ih =>
    obtain ⟨k1, v1⟩ := p
    unfold btInsert
    by_cases h1 : k < k1
    · simp [if_pos h1]
    · by_cases h2 : k = k1
      · simp [if_neg h1, if_pos h2]
      · simp only [if_neg h1, if_neg h2, List.length_cons]
        omega

theorem btRemove_sublist {V : Type} (l : List (Nat × V)) (k : Nat) :
    (btRemove l k).Sublist l := by
  induction l with
  | nil => simp [btRemove]
  | cons p t ih =>
    obtain ⟨k1, v1⟩ := p
    by_cases hk : k1 = k
    · simp only [btRemove, if_pos hk]
      exact ih.cons _
    · simp only [btRemove, if_neg hk]
      exact ih.cons₂ _

theorem length_btRemove_le {V : Type} (l : List (Nat × V)) (k : Nat) :
    (btRemove l k).length ≤ l.length :=
  (btRemove_sublist l k).length_le

theorem length_btRemove_lt {V : Type} (l : List (Nat × V)) (k : Nat)
    (h : k ∈ keysOf l) : (btRemove l k).length < l.length := by
  induction l with
  | nil => simp [keysOf] at h
  | cons p t ih =>
    obtain ⟨k1, v1⟩ := p
    simp only [keysOf, List.map_cons, List.mem_cons] at h
    by_cases hk : k1 = k
    · simp only [btRemove, if_pos hk, List.length_cons]
      exact Nat.lt_succ_of_le (length_btRemove_le t k)
    · rcases h with h | h
      · exact absurd h.symm hk
      · simp only [btRemove, if_neg hk, List.length_cons]
        exact Nat.succ_lt_succ (ih h)

theorem keysOf_btRemove {V : Type} (l : List (Nat × V)) (k : Nat) (k0 : Nat) :
    k0 ∈ keysOf (btRemove l k) ↔ k0 ∈ keysOf l ∧ k0 ≠ k := by
  induction l with
  | nil => simp [btRemove, keysOf]
  | cons p t ih =>
    obtain ⟨k1, v1⟩ := p
    by_cases hk : k1 = k
    · subst hk
      rw [btRemove_cons, if_pos rfl]
      rw [ih]
      simp only [keysOf, List.map_cons, List.mem_cons]
      constructor
      · rintro ⟨h1, h2⟩; exact ⟨Or.inr h1, h2⟩
      · rintro ⟨h1 | h1, h2⟩
        · exact absurd h1 h2
        · exact ⟨h1, h2⟩
    · rw [btRemove_cons, if_neg hk]
      simp only [keysOf, List.map_cons, List.mem_cons] at ih ⊢
      constructor
      · rintro (rfl | h1)
        · exact ⟨Or.inl rfl, hk⟩
        · rcases ih.mp h1 with ⟨h2, h3⟩
          exact ⟨Or.inr h2, h3⟩
      · rintro ⟨rfl | h1, h2⟩
        · exact Or.inl rfl
        · exact Or.inr (ih.mpr ⟨h1, h2⟩)

theorem eraseKey_of_lookup_none {K V : Type} [DecidableEq K] (l : List (K × V)) (k : K)
    (h : alookup l k = none) : eraseKey l k = l := by
  induction l with
  | nil => rfl
  | cons p t ih =>
    obtain ⟨k1, v1⟩ := p
    by_cases hk : k = k1
    · subst hk
      rw [alookup_cons, if_pos rfl] at h
      exact absurd h (by simp)
    · rw [alookup_cons, if_neg hk] at h
      have hne : k1 ≠ k := fun he => hk he.symm
      rw [eraseKey_cons, if_neg hne, ih h]

theorem length_insertRep_of_mem {K V : Type} [DecidableEq K] (l : List (K × V)) (k : K)
    (v v0 : V) (h : alookup l k = some v0) : (insertRep l k v).length = l.length := by
  induction l with
  | nil => simp [alookup] at h
  | cons p t ih =>
    obtain ⟨k1, v1⟩ := p
    by_cases hk : k = k1
    · subst hk
      simp [insertRep]
    · rw [alookup_cons, if_neg hk] at h
      simp [insertRep, if_neg hk, ih h]

theorem isEmpty_true_iff {A : Type} (l : List A) : l.isEmpty = true ↔ l = [] := by
  cases l <;> simp

theorem isEmpty_false_of_ne_nil {A : Type} {l : List A} (h : l ≠ []) : l.isEmpty = false := by
  cases l with
  | nil => exact absurd rfl h
  | cons x t => rfl

theorem mem_of_getLastQ {A : Type} (l : List A) (a : A) (h : l.getLast? = some a) :
    a ∈ l := by
  induction l with
  | nil => simp at h
  | cons x t ih =>
    cases t with
    | nil =>
      simp only [List.getLast?_singleton, Option.some.injEq] at h
      simp [h]
    | cons y u =>
      rw [List.getLast?_cons_cons] at h
      exact List.mem_cons_of_mem x (ih h)

/-- In a key-sorted list (ascending), the last entry has the largest key. -/
theorem sorted_le_getLast {V : Type} (l : List (Nat × V))
    (hs : l.Pairwise (fun p q => p.1 < q.1)) (p : Nat × V) (h : l.getLast? = some p)
    (k : Nat) (hk : k ∈ keysOf l) : k ≤ p.1 := by
  induction l with
  | nil => simp [keysOf] at hk
  | cons x t ih =>
    rcases List.pairwise_cons.mp hs with ⟨hx, ht⟩
    cases t with
    | nil =>
      simp only [List.getLast?_singleton, Option.some.injEq] at h
      subst h
      simp only [keysOf, List.map_cons, List.map_nil, List.mem_singleton] at hk
      exact le_of_eq hk
    | cons y u =>
      rw [List.getLast?_cons_cons] at h
      simp only [keysOf, List.map_cons, List.mem_cons] at hk
      rcases hk with rfl | hk
      · have hp : p ∈ y :: u := mem_of_getLastQ _ _ h
        exact le_of_lt (hx p hp)
      · exact ih ht h (by simpa [keysOf] using hk)

theorem pairwise_btInsert {V : Type} (l : List (Nat × V)) (k : Nat) (v : V)
    (hs : l.Pairwise (fun p q => p.1 < q.1)) :
    (btInsert l k v).Pairwise (fun p q => p.1 < q.1) := by
  induction l with
  | nil => simp [btInsert]
  | cons p t ih =>
    obtain ⟨k1, v1⟩ := p
    rcases List.pairwise_cons.mp hs with ⟨h1, ht⟩
    unfold btInsert
    by_cases hlt : k < k1
    · simp only [if_pos hlt]
      refine List.pairwise_cons.mpr ⟨?_, hs⟩
      intro q hq
      rcases List.mem_cons.mp hq with rfl | hq
      · exact hlt
      · exact lt_trans hlt (h1 q hq)
    · by_cases heq : k = k1
      · subst heq
        simp only [if_neg hlt, if_pos rfl]
        exact List.pairwise_cons.mpr ⟨h1, ht⟩
      · simp only [if_neg hlt, if_neg heq]
        refine List.pairwise_cons.mpr ⟨?_, ih ht⟩
        intro q hq
        have hmem : q.1 ∈ keysOf (btInsert t k v) := List.mem_map_of_mem Prod.fst hq
        rcases (keysOf_btInsert t k v q.1).mp hmem with h | h
        · omega
        · rcases List.mem_map.mp h with ⟨q0, hq0, hq0e⟩
          have := h1 q0 hq0
          omega

theorem pairwise_btRemove {V : Type} (l : List (Nat × V)) (k : Nat)
    (hs : l.Pairwise (fun p q => p.1 < q.1)) :
    (btRemove l k).Pairwise (fun p q => p.1 < q.1) :=
  hs.sublist (btRemove_sublist l k)

/-! ## Frame lemmas: which indices each helper leaves untouched -/

theorem sameCfgMsgs_refl (s : CacheState) : sameCfgMsgs s s := ⟨rfl, rfl⟩

theorem sameCfgMsgs_trans {s t u : CacheState} (h1 : sameCfgMsgs s t) (h2 : sameCfgMsgs t u) :
    sameCfgMsgs s u := ⟨h2.1.trans h1.1, h2.2.trans h1.2⟩

theorem sameVoice_refl (s : CacheState) : sameVoice s s := ⟨rfl, rfl⟩

theorem sameVoice_trans {s t u : CacheState} (h1 : sameVoice s t) (h2 : sameVoice t u) :
    sameVoice s u := ⟨h2.1.trans h1.1, h2.2.trans h1.2⟩

theorem cache_user_frame (s : CacheState) (u : User) (g : GuildId) :
    sameCfgMsgs s (cache_user s u g) ∧ sameVoice s (cache_user s u g) := by
  unfold cache_user
  repeat' split
  all_goals exact ⟨⟨rfl, rfl⟩, ⟨rfl, rfl⟩⟩

theorem cache_member_frame (s : CacheState) (g : GuildId) (m : Member) :
    sameCfgMsgs s (cache_member s g m) ∧ sameVoice s (cache_member s g m) := by
  have hu := cache_user_frame s m.user g
  constructor
  · simp only [cache_member]
    split
    · split
      · exact sameCfgMsgs_refl s
      · exact ⟨hu.1.1, hu.1.2⟩
    · exact ⟨hu.1.1, hu.1.2⟩
  · simp only [cache_member]
    split
    · split
      · exact sameVoice_refl s
      · exact ⟨hu.2.1, hu.2.2⟩
    · exact ⟨hu.2.1, hu.2.2⟩

theorem cache_members_frame (s : CacheState) (g : GuildId) (l : List Member) :
    sameCfgMsgs s (cache_members s g l) ∧ sameVoice s (cache_members s g l) := by
  induction l generalizing s with
  | nil => exact ⟨sameCfgMsgs_refl s, sameVoice_refl s⟩
  | cons m t ih =>
    have h1 := cache_member_frame s g m
    have h2 := ih (cache_member s g m)
    exact ⟨sameCfgMsgs_trans h1.1 h2.1, sameVoice_trans h1.2 h2.2⟩

theorem cache_guild_channel_frame (s : CacheState) (g : GuildId) (c : GuildChannel) :
    sameCfgMsgs s (cache_guild_channel s g c) ∧ sameVoice s (cache_guild_channel s g c) := by
  unfold cache_guild_channel
  exact ⟨⟨rfl, rfl⟩, ⟨rfl, rfl⟩⟩

theorem cache_guild_channels_frame (s : CacheState) (g : GuildId) (l : List GuildChannel) :
    sameCfgMsgs s (cache_guild_channels s g l) ∧ sameVoice s (cache_guild_channels s g l) := by
  induction l generalizing s with
  | nil => exact ⟨sameCfgMsgs_refl s, sameVoice_refl s⟩
  | cons c t ih =>
    have h1 := cache_guild_channel_frame s g c
    have h2 := ih (cache_guild_channel s g c)
    exact ⟨sameCfgMsgs_trans h1.1 h2.1, sameVoice_trans h1.2 h2.2⟩

theorem cache_emoji_frame (s : CacheState) (g : GuildId) (e : Emoji) :
    sameCfgMsgs s (cache_emoji s g e) ∧ sameVoice s (cache_emoji s g e) := by
  constructor
  · simp only [cache_emoji]
    split
    · exact sameCfgMsgs_refl s
    · cases he : e.user with
      | none => exact ⟨rfl, rfl⟩
      | some u =>
        have hu := cache_user_frame s u g
        exact ⟨hu.1.1, hu.1.2⟩
  · simp only [cache_emoji]
    split
    · exact sameVoice_refl s
    · cases he : e.user with
      | none => exact ⟨rfl, rfl⟩
      | some u =>
        have hu := cache_user_frame s u g
        exact ⟨hu.2.1, hu.2.2⟩

theorem cache_emojis_frame (s : CacheState) (g : GuildId) (l : List Emoji) :
    sameCfgMsgs s (cache_emojis s g l) ∧ sameVoice s (cache_emojis s g l) := by
  induction l generalizing s with
  | nil => exact ⟨sameCfgMsgs_refl s, sameVoice_refl s⟩
  | cons e t ih =>
    have h1 := cache_emoji_frame s g e
    have h2 := ih (cache_emoji s g e)
    exact ⟨sameCfgMsgs_trans h1.1 h2.1, sameVoice_trans h1.2 h2.2⟩

theorem cache_presence_frame (s : CacheState) (g : GuildId) (p : Presence) :
    sameCfgMsgs s (cache_presence s g p) ∧ sameVoice s (cache_presence s g p) := by
  constructor <;> (simp only [cache_presence]; repeat' split) <;> exact ⟨rfl, rfl⟩

theorem cache_presences_frame (s : CacheState) (g : GuildId) (l : List Presence) :
    sameCfgMsgs s (cache_presences s g l) ∧ sameVoice s (cache_presences s g l) := by
  induction l generalizing s with
  | nil => exact ⟨sameCfgMsgs_refl s, sameVoice_refl s⟩
  | cons p t ih =>
    have h1 := cache_presence_frame s g p
    have h2 := ih (cache_presence s g p)
    exact ⟨sameCfgMsgs_trans h1.1 h2.1, sameVoice_trans h1.2 h2.2⟩

theorem cache_role_frame (s : CacheState) (g : GuildId) (r : Role) :
    sameCfgMsgs s (cache_role s g r) ∧ sameVoice s (cache_role s g r) :=
  ⟨⟨rfl, rfl⟩, ⟨rfl, rfl⟩⟩

theorem cache_roles_frame (s : CacheState) (g : GuildId) (l : List Role) :
    sameCfgMsgs s (cache_roles s g l) ∧ sameVoice s (cache_roles s g l) := by
  induction l generalizing s with
  | nil => exact ⟨sameCfgMsgs_refl s, sameVoice_refl s⟩
  | cons r t ih =>
    have h1 := cache_role_frame s g r
    have h2 := ih (cache_role s g r)
    exact ⟨sameCfgMsgs_trans h1.1 h2.1, sameVoice_trans h1.2 h2.2⟩

theorem cache_voice_state_frame (s : CacheState) (vs : VoiceState) :
    sameCfgMsgs s (cache_voice_state s vs) := by
  simp only [cache_voice_state]
  repeat' split
  all_goals exact ⟨rfl, rfl⟩

theorem cache_voice_states_frame (s : CacheState) (l : List VoiceState) :
    sameCfgMsgs s (cache_voice_states s l) := by
  induction l generalizing s with
  | nil => exact sameCfgMsgs_refl s
  | cons v t ih =>
    exact sameCfgMsgs_trans (cache_voice_state_frame s v) (ih (cache_voice_state s v))

theorem cache_guild_cascade_frame (t : CacheState) (g : Guild) :
    sameCfgMsgs t (cache_voice_states (cache_roles (cache_presences (cache_members
      (cache_emojis (cache_guild_channels t g.id g.channels) g.id g.emojis)
      g.id g.members) g.id g.presences) g.id g.roles) g.voice_states) := by
  refine sameCfgMsgs_trans (cache_guild_channels_frame t g.id g.channels).1 ?_
  refine sameCfgMsgs_trans (cache_emojis_frame _ g.id g.emojis).1 ?_
  refine sameCfgMsgs_trans (cache_members_frame _ g.id g.members).1 ?_
  refine sameCfgMsgs_trans (cache_presences_frame _ g.id g.presences).1 ?_
  refine sameCfgMsgs_trans (cache_roles_frame _ g.id g.roles).1 ?_
  exact cache_voice_states_frame _ g.voice_states

theorem cache_guild_frame (s : CacheState) (g : Guild) :
    sameCfgMsgs s (cache_guild s g) := by
  have h := cache_guild_cascade_frame ({ s with
      guild_channels := insertRep s.guild_channels g.id [],
      guild_emojis := insertRep s.guild_emojis g.id [],
      guild_members := insertRep s.guild_members g.id [],
      guild_presences := insertRep s.guild_presences g.id [],
      guild_roles := insertRep s.guild_roles g.id [],
      voice_state_guilds := insertRep s.voice_state_guilds g.id [] }) g
  exact h

theorem cache_private_channel_frame (s : CacheState) (pc : PrivateChannel) :
    sameCfgMsgs s (cache_private_channel s pc) ∧ sameVoice s (cache_private_channel s pc) := by
  constructor <;> (simp only [cache_private_channel]; repeat' split) <;> exact ⟨rfl, rfl⟩

theorem cache_group_frame (s : CacheState) (g : Group) :
    sameCfgMsgs s (cache_group s g) ∧ sameVoice s (cache_group s g) :=
  ⟨⟨rfl, rfl⟩, ⟨rfl, rfl⟩⟩

theorem delete_guild_channel_frame (s : CacheState) (c : ChannelId) :
    sameCfgMsgs s (delete_guild_channel s c) ∧ sameVoice s (delete_guild_channel s c) := by
  constructor <;> (simp only [delete_guild_channel]; repeat' split) <;> exact ⟨rfl, rfl⟩

theorem channelCreateUpdate_frame (c : Channel) (s : CacheState) :
    sameCfgMsgs s (channelCreateUpdate c s) ∧ sameVoice s (channelCreateUpdate c s) := by
  cases c with
  | group gc =>
    simp only [channelCreateUpdate]
    split
    · exact ⟨sameCfgMsgs_refl s, sameVoice_refl s⟩
    · exact ⟨⟨rfl, rfl⟩, ⟨rfl, rfl⟩⟩
  | guild gc =>
    simp only [channelCreateUpdate]
    split
    · exact ⟨sameCfgMsgs_refl s, sameVoice_refl s⟩
    · cases hgid : gc.guildId with
      | some gid => exact cache_guild_channel_frame s gid gc
      | none => exact ⟨sameCfgMsgs_refl s, sameVoice_refl s⟩
  | priv pc =>
    simp only [channelCreateUpdate]
    split
    · exact ⟨sameCfgMsgs_refl s, sameVoice_refl s⟩
    · exact cache_private_channel_frame s pc

theorem channelUpdateUpdate_frame (c : Channel) (s : CacheState) :
    sameCfgMsgs s (channelUpdateUpdate c s) ∧ sameVoice s (channelUpdateUpdate c s) := by
  cases c with
  | group gc =>
    simp only [channelUpdateUpdate]
    split
    · exact ⟨sameCfgMsgs_refl s, sameVoice_refl s⟩
    · exact cache_group_frame s gc
  | guild gc =>
    simp only [channelUpdateUpdate]
    split
    · exact ⟨sameCfgMsgs_refl s, sameVoice_refl s⟩
    · cases hgid : gc.guildId with
      | some gid => exact cache_guild_channel_frame s gid gc
      | none => exact ⟨sameCfgMsgs_refl s, sameVoice_refl s⟩
  | priv pc =>
    simp only [channelUpdateUpdate]
    split
    · exact ⟨sameCfgMsgs_refl s, sameVoice_refl s⟩
    · exact cache_private_channel_frame s pc

theorem channelDeleteUpdate_frame (c : Channel) (s : CacheState) :
    sameCfgMsgs s (channelDeleteUpdate c s) ∧ sameVoice s (channelDeleteUpdate c s) := by
  cases c with
  | group gc =>
    simp only [channelDeleteUpdate]
    split
    · exact ⟨sameCfgMsgs_refl s, sameVoice_refl s⟩
    · exact ⟨⟨rfl, rfl⟩, ⟨rfl, rfl⟩⟩
  | guild gc =>
    simp only [channelDeleteUpdate]
    split
    · exact ⟨sameCfgMsgs_refl s, sameVoice_refl s⟩
    · exact delete_guild_channel_frame s gc.id
  | priv pc =>
    simp only [channelDeleteUpdate]
    split
    · exact ⟨sameCfgMsgs_refl s, sameVoice_refl s⟩
    · exact ⟨⟨rfl, rfl⟩, ⟨rfl, rfl⟩⟩

theorem memberAddUpdate_frame (m : Member) (s : CacheState) :
    sameCfgMsgs s (memberAddUpdate m s) ∧ sameVoice s (memberAddUpdate m s) := by
  simp only [memberAddUpdate]
  split
  · exact ⟨sameCfgMsgs_refl s, sameVoice_refl s⟩
  · have h := cache_member_frame s m.guild_id m
    exact ⟨⟨h.1.1, h.1.2⟩, ⟨h.2.1, h.2.2⟩⟩

theorem memberChunkUpdate_frame (gid : GuildId) (ms : List (UserId × Member)) (s : CacheState) :
    sameCfgMsgs s (memberChunkUpdate gid ms s) ∧ sameVoice s (memberChunkUpdate gid ms s) := by
  simp only [memberChunkUpdate]
  split
  · exact ⟨sameCfgMsgs_refl s, sameVoice_refl s⟩
  · split
    · exact ⟨sameCfgMsgs_refl s, sameVoice_refl s⟩
    · have h := cache_members_frame s gid (ms.map Prod.snd)
      exact ⟨⟨h.1.1, h.1.2⟩, ⟨h.2.1, h.2.2⟩⟩

theorem memberRemoveUpdate_frame (gid : GuildId) (u : User) (s : CacheState) :
    sameCfgMsgs s (memberRemoveUpdate gid u s) ∧ sameVoice s (memberRemoveUpdate gid u s) := by
  constructor <;> (simp only [memberRemoveUpdate]; repeat' split) <;> exact ⟨rfl, rfl⟩

theorem unavailableGuildUpdate_frame (id : GuildId) (s : CacheState) :
    sameCfgMsgs s (unavailableGuildUpdate id s) ∧ sameVoice s (unavailableGuildUpdate id s) := by
  constructor <;> (simp only [unavailableGuildUpdate]; repeat' split) <;> exact ⟨rfl, rfl⟩

theorem guildCreateUpdate_cfg_frame (g : Guild) (s : CacheState) :
    sameCfgMsgs s (guildCreateUpdate g s) := by
  simp only [guildCreateUpdate]
  split
  · exact sameCfgMsgs_refl s
  · exact cache_guild_frame s g

theorem voiceStateUpdateUpdate_cfg_frame (vs : VoiceState) (s : CacheState) :
    sameCfgMsgs s (voiceStateUpdateUpdate vs s) := by
  simp only [voiceStateUpdateUpdate]
  split
  · exact sameCfgMsgs_refl s
  · exact cache_voice_state_frame s vs

theorem messageCreateUpdate_cfg_voice (m : Message) (s : CacheState) :
    (messageCreateUpdate m s).config = s.config ∧ sameVoice s (messageCreateUpdate m s) := by
  constructor
  · simp only [messageCreateUpdate]; repeat' split <;> rfl
  · constructor <;> (simp only [messageCreateUpdate]; repeat' split) <;> rfl

theorem messageDeleteUpdate_cfg_voice (cid : ChannelId) (id : MessageId) (s : CacheState) :
    (messageDeleteUpdate cid id s).config = s.config ∧
    sameVoice s (messageDeleteUpdate cid id s) := by
  constructor
  · simp only [messageDeleteUpdate]; repeat' split <;> rfl
  · constructor <;> (simp only [messageDeleteUpdate]; repeat' split) <;> rfl

theorem messageDeleteBulkUpdate_cfg_voice (cid : ChannelId) (ids : List MessageId)
    (s : CacheState) :
    (messageDeleteBulkUpdate cid ids s).config = s.config ∧
    sameVoice s (messageDeleteBulkUpdate cid ids s) := by
  constructor
  · simp only [messageDeleteBulkUpdate]; repeat' split <;> rfl
  · constructor <;> (simp only [messageDeleteBulkUpdate]; repeat' split) <;> rfl

/-- Every handler leaves the configuration untouched. -/
theorem update_config (e : Event) (s : CacheState) : (e.update s).config = s.config := by
  cases e with
  | channelCreate c => exact (channelCreateUpdate_frame c s).1.1
  | channelDelete c => exact (channelDeleteUpdate_frame c s).1.1
  | channelUpdate c => exact (channelUpdateUpdate_frame c s).1.1
  | guildCreate g => exact (guildCreateUpdate_cfg_frame g s).1
  | memberAdd m => exact (memberAddUpdate_frame m s).1.1
  | memberChunk gid ms => exact (memberChunkUpdate_frame gid ms s).1.1
  | memberRemove gid u => exact (memberRemoveUpdate_frame gid u s).1.1
  | messageCreate m => exact (messageCreateUpdate_cfg_voice m s).1
  | messageDelete cid id => exact (messageDeleteUpdate_cfg_voice cid id s).1
  | messageDeleteBulk cid ids => exact (messageDeleteBulkUpdate_cfg_voice cid ids s).1
  | unavailableGuild id => exact (unavailableGuildUpdate_frame id s).1.1
  | voiceStateUpdate vs => exact (voiceStateUpdateUpdate_cfg_frame vs s).1

/-! ## The per-channel message bound -/

theorem msgBound_of_sameCfgMsgs {s t : CacheState} (h : sameCfgMsgs s t) (hb : msgBound s) :
    msgBound t := by
  intro c
  rw [show t.messages = s.messages from h.2, show t.config = s.config from h.1]
  exact hb c

theorem length_foldl_btRemove_le {V : Type} (ids : List Nat) (chan : List (Nat × V)) :
    (ids.foldl btRemove chan).length ≤ chan.length := by
  induction ids generalizing chan with
  | nil => exact le_refl _
  | cons i t ih =>
    calc (t.foldl btRemove (btRemove chan i)).length ≤ (btRemove chan i).length := ih _
      _ ≤ chan.length := length_btRemove_le chan i

theorem msgBound_messageCreate (m : Message) (s : CacheState) (hb : msgBound s) :
    msgBound (messageCreateUpdate m s) := by
  intro c
  simp only [messageCreateUpdate]
  split
  · exact hb c
  · show ((alookup (insertRep s.messages m.channel_id _) c).getD []).length ≤ _
    rw [alookup_insertRep]
    by_cases hc : c = m.channel_id
    · rw [if_pos hc]
      simp only [Option.getD_some]
      have hchan := hb m.channel_id
      by_cases hlen :
          ((alookup s.messages m.channel_id).getD []).length > s.config.message_cache_size
      · rw [if_pos hlen]
        cases hlast : ((alookup s.messages m.channel_id).getD []).getLast? with
        | none =>
          have hnil := List.getLast?_eq_none_iff.mp hlast
          rw [hnil] at hlen
          simp at hlen
        | some kv =>
          have hmem : kv.1 ∈ keysOf ((alookup s.messages m.channel_id).getD []) := by
            unfold keysOf
            exact List.mem_map_of_mem Prod.fst (mem_of_getLastQ _ kv hlast)
          have h1 := length_btRemove_lt ((alookup s.messages m.channel_id).getD []) kv.1 hmem
          have h2 := length_btInsert_le (btRemove ((alookup s.messages m.channel_id).getD []) kv.1)
            m.id (CachedMessage.ofMessage m)
          show (btInsert (btRemove ((alookup s.messages m.channel_id).getD []) kv.1) m.id
              (CachedMessage.ofMessage m)).length ≤ s.config.message_cache_size + 1
          omega
      · rw [if_neg hlen]
        have h2 := length_btInsert_le ((alookup s.messages m.channel_id).getD [])
          m.id (CachedMessage.ofMessage m)
        omega
    · rw [if_neg hc]
      exact hb c

theorem msgBound_messageDelete (cid : ChannelId) (id : MessageId) (s : CacheState)
    (hb : msgBound s) : msgBound (messageDeleteUpdate cid id s) := by
  intro c
  simp only [messageDeleteUpdate]
  split
  · exact hb c
  · show ((alookup (insertRep s.messages cid _) c).getD []).length ≤ _
    rw [alookup_insertRep]
    by_cases hc : c = cid
    · rw [if_pos hc]
      simp only [Option.getD_some]
      have h1 := length_btRemove_le ((alookup s.messages cid).getD []) id
      have h2 := hb cid
      omega
    · rw [if_neg hc]
      exact hb c

theorem msgBound_messageDeleteBulk (cid : ChannelId) (ids : List MessageId) (s : CacheState)
    (hb : msgBound s) : msgBound (messageDeleteBulkUpdate cid ids s) := by
  intro c
  simp only [messageDeleteBulkUpdate]
  split
  · exact hb c
  · show ((alookup (insertRep s.messages cid _) c).getD []).length ≤ _
    rw [alookup_insertRep]
    by_cases hc : c = cid
    · rw [if_pos hc]
      simp only [Option.getD_some]
      have h1 := length_foldl_btRemove_le ids ((alookup s.messages cid).getD [])
      have h2 := hb cid
      omega
    · rw [if_neg hc]
      exact hb c

theorem msgBound_update (e : Event) (s : CacheState) (hb : msgBound s) :
    msgBound (e.update s) := by
  cases e with
  | channelCreate c => exact msgBound_of_sameCfgMsgs (channelCreateUpdate_frame c s).1 hb
  | channelDelete c => exact msgBound_of_sameCfgMsgs (channelDeleteUpdate_frame c s).1 hb
  | channelUpdate c => exact msgBound_of_sameCfgMsgs (channelUpdateUpdate_frame c s).1 hb
  | guildCreate g => exact msgBound_of_sameCfgMsgs (guildCreateUpdate_cfg_frame g s) hb
  | memberAdd m => exact msgBound_of_sameCfgMsgs (memberAddUpdate_frame m s).1 hb
  | memberChunk gid ms => exact msgBound_of_sameCfgMsgs (memberChunkUpdate_frame gid ms s).1 hb
  | memberRemove gid u => exact msgBound_of_sameCfgMsgs (memberRemoveUpdate_frame gid u s).1 hb
  | messageCreate m => exact msgBound_messageCreate m s hb
  | messageDelete cid id => exact msgBound_messageDelete cid id s hb
  | messageDeleteBulk cid ids => exact msgBound_messageDeleteBulk cid ids s hb
  | unavailableGuild id => exact msgBound_of_sameCfgMsgs (unavailableGuildUpdate_frame id s).1 hb
  | voiceStateUpdate vs => exact msgBound_of_sameCfgMsgs (voiceStateUpdateUpdate_cfg_frame vs s) hb

theorem msgBound_applyEvents (es : List Event) (s : CacheState) (hb : msgBound s) :
    msgBound (applyEvents es s) := by
  induction es generalizing s with
  | nil => exact hb
  | cons e t ih => exact ih (e.update s) (msgBound_update e s hb)

theorem applyEvents_config (es : List Event) (s : CacheState) :
    (applyEvents es s).config = s.config := by
  induction es generalizing s with
  | nil => rfl
  | cons e t ih => exact (ih (e.update s)).trans (update_config e s)

/-! ## No-empty-values preservation for the voice reverse indices -/

theorem nonemptyMap_eraseKey {K A : Type} [DecidableEq K] (m : List (K × List A)) (k : K)
    (h : ∀ k0 S, alookup m k0 = some S → S ≠ []) :
    ∀ k0 S, alookup (eraseKey m k) k0 = some S → S ≠ [] := by
  intro k0 S hS
  rw [alookup_eraseKey] at hS
  by_cases hk : k0 = k
  · rw [if_pos hk] at hS
    exact absurd hS (by simp)
  · rw [if_neg hk] at hS
    exact h k0 S hS

theorem nonemptyMap_insertRep {K A : Type} [DecidableEq K] (m : List (K × List A)) (k : K)
    (X : List A) (h : ∀ k0 S, alookup m k0 = some S → S ≠ []) (hX : X ≠ []) :
    ∀ k0 S, alookup (insertRep m k X) k0 = some S → S ≠ [] := by
  intro k0 S hS
  rw [alookup_insertRep] at hS
  by_cases hk : k0 = k
  · rw [if_pos hk] at hS
    injection hS with hS
    exact hS ▸ hX
  · rw [if_neg hk] at hS
    exact h k0 S hS

theorem eraseSet_ne_nil_of_isEmpty_false {A : Type} [DecidableEq A] {l : List A} {a : A}
    (h : (eraseSet l a).isEmpty = false) : eraseSet l a ≠ [] := by
  intro hn
  rw [hn] at h
  simp at h

theorem chanNonempty_cache_voice_state (s : CacheState) (vs : VoiceState)
    (h : chanNonempty s) : chanNonempty (cache_voice_state s vs) := by
  cases hg : vs.guild_id with
  | none =>
    have hres : cache_voice_state s vs = s := by simp [cache_voice_state, hg]
    rw [hres]
    exact h
  | some g =>
    cases hst : alookup s.voice_states (g, vs.user_id) with
    | none =>
      cases hc : vs.channel_id with
      | none =>
        cases hgu : alookup s.voice_state_guilds g with
        | none =>
          have hres : cache_voice_state s vs =
              { s with voice_states := eraseKey s.voice_states (g, vs.user_id) } := by
            simp [cache_voice_state, hg, hst, hc, hgu]
          rw [hres]
          exact h
        | some S =>
          by_cases hge : (eraseSet S vs.user_id).isEmpty = true
          · have hres : cache_voice_state s vs =
                { s with
                    voice_state_guilds := eraseKey s.voice_state_guilds g,
                    voice_states := eraseKey s.voice_states (g, vs.user_id) } := by
              simp [cache_voice_state, hg, hst, hc, hgu, hge]
            rw [hres]
            exact h
          · have hge2 : (eraseSet S vs.user_id).isEmpty = false := by simpa using hge
            have hres : cache_voice_state s vs =
                { s with
                    voice_state_guilds := insertRep s.voice_state_guilds g (eraseSet S vs.user_id),
                    voice_states := eraseKey s.voice_states (g, vs.user_id) } := by
              simp [cache_voice_state, hg, hst, hc, hgu, hge2]
            rw [hres]
            exact h
      | some c1 =>
        have hres : cache_voice_state s vs = { s with
            voice_states := insertRep s.voice_states (g, vs.user_id) vs,
            voice_state_guilds := insertRep s.voice_state_guilds g (insertSet ((alookup s.voice_state_guilds g).getD []) vs.user_id),
            voice_state_channels := insertRep s.voice_state_channels c1 (insertSet ((alookup s.voice_state_channels c1).getD []) (g, vs.user_id)) } := by
          simp [cache_voice_state, hg, hst, hc]
        rw [hres]
        exact nonemptyMap_insertRep _ _ _ h (insertSet_ne_nil _ _)
    | some vs0 =>
      cases h0 : vs0.channel_id with
      | none =>
        cases hc : vs.channel_id with
        | none =>
          cases hgu : alookup s.voice_state_guilds g with
          | none =>
            have hres : cache_voice_state s vs =
                { s with voice_states := eraseKey s.voice_states (g, vs.user_id) } := by
              simp [cache_voice_state, hg, hst, h0, hc, hgu]
            rw [hres]
            exact h
          | some S =>
            by_cases hge : (eraseSet S vs.user_id).isEmpty = true
            · have hres : cache_voice_state s vs =
                  { s with
                      voice_state_guilds := eraseKey s.voice_state_guilds g,
                      voice_states := eraseKey s.voice_states (g, vs.user_id) } := by
                simp [cache_voice_state, hg, hst, h0, hc, hgu, hge]
              rw [hres]
              exact h
            · have hge2 : (eraseSet S vs.user_id).isEmpty = false := by simpa using hge
              have hres : cache_voice_state s vs =
                  { s with
                      voice_state_guilds := insertRep s.voice_state_guilds g (eraseSet S vs.user_id),
                      voice_states := eraseKey s.voice_states (g, vs.user_id) } := by
                simp [cache_voice_state, hg, hst, h0, hc, hgu, hge2]
              rw [hres]
              exact h
        | some c1 =>
          have hres : cache_voice_state s vs = { s with
              voice_states := insertRep s.voice_states (g, vs.user_id) vs,
              voice_state_guilds := insertRep s.voice_state_guilds g (insertSet ((alookup s.voice_state_guilds g).getD []) vs.user_id),
              voice_state_channels := insertRep s.voice_state_channels c1 (insertSet ((alookup s.voice_state_channels c1).getD []) (g, vs.user_id)) } := by
            simp [cache_voice_state, hg, hst, h0, hc]
          rw [hres]
          exact nonemptyMap_insertRep _ _ _ h (insertSet_ne_nil _ _)
      | some c0 =>
        cases hcv : alookup s.voice_state_channels c0 with
        | none =>
          cases hc : vs.channel_id with
          | none =>
            cases hgu : alookup s.voice_state_guilds g with
            | none =>
              have hres : cache_voice_state s vs =
                  { s with voice_states := eraseKey s.voice_states (g, vs.user_id) } := by
                simp [cache_voice_state, hg, hst, h0, hcv, hc, hgu]
              rw [hres]
              exact h
            | some S =>
              by_cases hge : (eraseSet S vs.user_id).isEmpty = true
              · have hres : cache_voice_state s vs =
                    { s with
                        voice_state_guilds := eraseKey s.voice_state_guilds g,
                        voice_states := eraseKey s.voice_states (g, vs.user_id) } := by
                  simp [cache_voice_state, hg, hst, h0, hcv, hc, hgu, hge]
                rw [hres]
                exact h
              · have hge2 : (eraseSet S vs.user_id).isEmpty = false := by simpa using hge
                have hres : cache_voice_state s vs =
                    { s with
                        voice_state_guilds := insertRep s.voice_state_guilds g (eraseSet S vs.user_id),
                        voice_states := eraseKey s.voice_states (g, vs.user_id) } := by
                  simp [cache_voice_state, hg, hst, h0, hcv, hc, hgu, hge2]
                rw [hres]
                exact h
          | some c1 =>
            have hres : cache_voice_state s vs = { s with
                voice_states := insertRep s.voice_states (g, vs.user_id) vs,
                voice_state_guilds := insertRep s.voice_state_guilds g (insertSet ((alookup s.voice_state_guilds g).getD []) vs.user_id),
                voice_state_channels := insertRep s.voice_state_channels c1 (insertSet ((alookup s.voice_state_channels c1).getD []) (g, vs.user_id)) } := by
              simp [cache_voice_state, hg, hst, h0, hcv, hc]
            rw [hres]
            exact nonemptyMap_insertRep _ _ _ h (insertSet_ne_nil _ _)
        | some cvs =>
          by_cases hce : (eraseSet cvs (g, vs.user_id)).isEmpty = true
          · have hne1 : ∀ k0 S, alookup (eraseKey s.voice_state_channels c0) k0 = some S →
                S ≠ [] := nonemptyMap_eraseKey _ _ h
            cases hc : vs.channel_id with
            | none =>
              cases hgu : alookup s.voice_state_guilds g with
              | none =>
                have hres : cache_voice_state s vs =
                    { s with
                        voice_state_channels := eraseKey s.voice_state_channels c0,
                        voice_states := eraseKey s.voice_states (g, vs.user_id) } := by
                  simp [cache_voice_state, hg, hst, h0, hcv, hce, hc, hgu]
                rw [hres]
                exact hne1
              | some S =>
                by_cases hge : (eraseSet S vs.user_id).isEmpty = true
                · have hres : cache_voice_state s vs =
                      { s with
                          voice_state_channels := eraseKey s.voice_state_channels c0,
                          voice_state_guilds := eraseKey s.voice_state_guilds g,
                          voice_states := eraseKey s.voice_states (g, vs.user_id) } := by
                    simp [cache_voice_state, hg, hst, h0, hcv, hce, hc, hgu, hge]
                  rw [hres]
                  exact hne1
                · have hge2 : (eraseSet S vs.user_id).isEmpty = false := by simpa using hge
                  have hres : cache_voice_state s vs =
                      { s with
                          voice_state_channels := eraseKey s.voice_state_channels c0,
                          voice_state_guilds := insertRep s.voice_state_guilds g (eraseSet S vs.user_id),
                          voice_states := eraseKey s.voice_states (g, vs.user_id) } := by
                    simp [cache_voice_state, hg, hst, h0, hcv, hce, hc, hgu, hge2]
                  rw [hres]
                  exact hne1
            | some c1 =>
              have hres : cache_voice_state s vs = { s with
                  voice_states := insertRep s.voice_states (g, vs.user_id) vs,
                  voice_state_guilds := insertRep s.voice_state_guilds g (insertSet ((alookup s.voice_state_guilds g).getD []) vs.user_id),
                  voice_state_channels := insertRep (eraseKey s.voice_state_channels c0) c1 (insertSet ((alookup (eraseKey s.voice_state_channels c0) c1).getD []) (g, vs.user_id)) } := by
                simp [cache_voice_state, hg, hst, h0, hcv, hce, hc]
              rw [hres]
              exact nonemptyMap_insertRep _ _ _ hne1 (insertSet_ne_nil _ _)
          · have hce2 : (eraseSet cvs (g, vs.user_id)).isEmpty = false := by simpa using hce
            have hne1 : ∀ k0 S,
                alookup (insertRep s.voice_state_channels c0 (eraseSet cvs (g, vs.user_id)))
                  k0 = some S → S ≠ [] :=
              nonemptyMap_insertRep _ _ _ h (eraseSet_ne_nil_of_isEmpty_false hce2)
            cases hc : vs.channel_id with
            | none =>
              cases hgu : alookup s.voice_state_guilds g with
              | none =>
                have hres : cache_voice_state s vs =
                    { s with
                        voice_state_channels := insertRep s.voice_state_channels c0 (eraseSet cvs (g, vs.user_id)),
                        voice_states := eraseKey s.voice_states (g, vs.user_id) } := by
                  simp [cache_voice_state, hg, hst, h0, hcv, hce2, hc, hgu]
                rw [hres]
                exact hne1
              | some S =>
                by_cases hge : (eraseSet S vs.user_id).isEmpty = true
                · have hres : cache_voice_state s vs =
                      { s with
                          voice_state_channels := insertRep s.voice_state_channels c0 (eraseSet cvs (g, vs.user_id)),
                          voice_state_guilds := eraseKey s.voice_state_guilds g,
                          voice_states := eraseKey s.voice_states (g, vs.user_id) } := by
                    simp [cache_voice_state, hg, hst, h0, hcv, hce2, hc, hgu, hge]
                  rw [hres]
                  exact hne1
                · have hge2 : (eraseSet S vs.user_id).isEmpty = false := by simpa using hge
                  have hres : cache_voice_state s vs =
                      { s with
                          voice_state_channels := insertRep s.voice_state_channels c0 (eraseSet cvs (g, vs.user_id)),
                          voice_state_guilds := insertRep s.voice_state_guilds g (eraseSet S vs.user_id),
                          voice_states := eraseKey s.voice_states (g, vs.user_id) } := by
                    simp [cache_voice_state, hg, hst, h0, hcv, hce2, hc, hgu, hge2]
                  rw [hres]
                  exact hne1
            | some c1 =>
              have hres : cache_voice_state s vs = { s with
                  voice_states := insertRep s.voice_states (g, vs.user_id) vs,
                  voice_state_guilds := insertRep s.voice_state_guilds g (insertSet ((alookup s.voice_state_guilds g).getD []) vs.user_id),
                  voice_state_channels := insertRep (insertRep s.voice_state_channels c0 (eraseSet cvs (g, vs.user_id))) c1 (insertSet ((alookup (insertRep s.voice_state_channels c0 (eraseSet cvs (g, vs.user_id))) c1).getD []) (g, vs.user_id)) } := by
                simp [cache_voice_state, hg, hst, h0, hcv, hce2, hc]
              rw [hres]
              exact nonemptyMap_insertRep _ _ _ hne1 (insertSet_ne_nil _ _)

theorem guildsNonempty_cache_voice_state (s : CacheState) (vs : VoiceState)
    (h : guildsNonempty s) : guildsNonempty (cache_voice_state s vs) := by
  cases hg : vs.guild_id with
  | none =>
    have hres : cache_voice_state s vs = s := by simp [cache_voice_state, hg]
    rw [hres]
    first
      | exact h
      | exact nonemptyMap_eraseKey _ _ h
      | exact nonemptyMap_insertRep _ _ _ h (insertSet_ne_nil _ _)
      | exact nonemptyMap_insertRep _ _ _ h (eraseSet_ne_nil_of_isEmpty_false hge2)
  | some g =>
    cases hst : alookup s.voice_states (g, vs.user_id) with
    | none =>
      cases hc : vs.channel_id with
      | none =>
        cases hgu : alookup s.voice_state_guilds g with
        | none =>
          have hres : cache_voice_state s vs =
              { s with voice_states := eraseKey s.voice_states (g, vs.user_id) } := by
            simp [cache_voice_state, hg, hst, hc, hgu]
          rw [hres]
          first
            | exact h
            | exact nonemptyMap_eraseKey _ _ h
            | exact nonemptyMap_insertRep _ _ _ h (insertSet_ne_nil _ _)
            | exact nonemptyMap_insertRep _ _ _ h (eraseSet_ne_nil_of_isEmpty_false hge2)
        | some S =>
          by_cases hge : (eraseSet S vs.user_id).isEmpty = true
          · have hres : cache_voice_state s vs =
                { s with
                    voice_state_guilds := eraseKey s.voice_state_guilds g,
                    voice_states := eraseKey s.voice_states (g, vs.user_id) } := by
              simp [cache_voice_state, hg, hst, hc, hgu, hge]
            rw [hres]
            first
              | exact h
              | exact nonemptyMap_eraseKey _ _ h
              | exact nonemptyMap_insertRep _ _ _ h (insertSet_ne_nil _ _)
              | exact nonemptyMap_insertRep _ _ _ h (eraseSet_ne_nil_of_isEmpty_false hge2)
          · have hge2 : (eraseSet S vs.user_id).isEmpty = false := by simpa using hge
            have hres : cache_voice_state s vs =
                { s with
                    voice_state_guilds := insertRep s.voice_state_guilds g (eraseSet S vs.user_id),
                    voice_states := eraseKey s.voice_states (g, vs.user_id) } := by
              simp [cache_voice_state, hg, hst, hc, hgu, hge2]
            rw [hres]
            first
              | exact h
              | exact nonemptyMap_eraseKey _ _ h
              | exact nonemptyMap_insertRep _ _ _ h (insertSet_ne_nil _ _)
              | exact nonemptyMap_insertRep _ _ _ h (eraseSet_ne_nil_of_isEmpty_false hge2)
      | some c1 =>
        have hres : cache_voice_state s vs = { s with
            voice_states := insertRep s.voice_states (g, vs.user_id) vs,
            voice_state_guilds := insertRep s.voice_state_guilds g (insertSet ((alookup s.voice_state_guilds g).getD []) vs.user_id),
            voice_state_channels := insertRep s.voice_state_channels c1 (insertSet ((alookup s.voice_state_channels c1).getD []) (g, vs.user_id)) } := by
          simp [cache_voice_state, hg, hst, hc]
        rw [hres]
        first
          | exact h
          | exact nonemptyMap_eraseKey _ _ h
          | exact nonemptyMap_insertRep _ _ _ h (insertSet_ne_nil _ _)
          | exact nonemptyMap_insertRep _ _ _ h (eraseSet_ne_nil_of_isEmpty_false hge2)
    | some vs0 =>
      cases h0 : vs0.channel_id with
      | none =>
        cases hc : vs.channel_id with
        | none =>
          cases hgu : alookup s.voice_state_guilds g with
          | none =>
            have hres : cache_voice_state s vs =
                { s with voice_states := eraseKey s.voice_states (g, vs.user_id) } := by
              simp [cache_voice_state, hg, hst, h0, hc, hgu]
            rw [hres]
            first
              | exact h
              | exact nonemptyMap_eraseKey _ _ h
              | exact nonemptyMap_insertRep _ _ _ h (insertSet_ne_nil _ _)
              | exact nonemptyMap_insertRep _ _ _ h (eraseSet_ne_nil_of_isEmpty_false hge2)
          | some S =>
            by_cases hge : (eraseSet S vs.user_id).isEmpty = true
            · have hres : cache_voice_state s vs =
                  { s with
                      voice_state_guilds := eraseKey s.voice_state_guilds g,
                      voice_states := eraseKey s.voice_states (g, vs.user_id) } := by
                simp [cache_voice_state, hg, hst, h0, hc, hgu, hge]
              rw [hres]
              first
                | exact h
                | exact nonemptyMap_eraseKey _ _ h
                | exact nonemptyMap_insertRep _ _ _ h (insertSet_ne_nil _ _)
                | exact nonemptyMap_insertRep _ _ _ h (eraseSet_ne_nil_of_isEmpty_false hge2)
            · have hge2 : (eraseSet S vs.user_id).isEmpty = false := by simpa using hge
              have hres : cache_voice_state s vs =
                  { s with
                      voice_state_guilds := insertRep s.voice_state_guilds g (eraseSet S vs.user_id),
                      voice_states := eraseKey s.voice_states (g, vs.user_id) } := by
                simp [cache_voice_state, hg, hst, h0, hc, hgu, hge2]
              rw [hres]
              first
                | exact h
                | exact nonemptyMap_eraseKey _ _ h
                | exact nonemptyMap_insertRep _ _ _ h (insertSet_ne_nil _ _)
                | exact nonemptyMap_insertRep _ _ _ h (eraseSet_ne_nil_of_isEmpty_false hge2)
        | some c1 =>
          have hres : cache_voice_state s vs = { s with
              voice_states := insertRep s.voice_states (g, vs.user_id) vs,
              voice_state_guilds := insertRep s.voice_state_guilds g (insertSet ((alookup s.voice_state_guilds g).getD []) vs.user_id),
              voice_state_channels := insertRep s.voice_state_channels c1 (insertSet ((alookup s.voice_state_channels c1).getD []) (g, vs.user_id)) } := by
            simp [cache_voice_state, hg, hst, h0, hc]
          rw [hres]
          first
            | exact h
            | exact nonemptyMap_eraseKey _ _ h
            | exact nonemptyMap_insertRep _ _ _ h (insertSet_ne_nil _ _)
            | exact nonemptyMap_insertRep _ _ _ h (eraseSet_ne_nil_of_isEmpty_false hge2)
      | some c0 =>
        cases hcv : alookup s.voice_state_channels c0 with
        | none =>
          cases hc : vs.channel_id with
          | none =>
            cases hgu : alookup s.voice_state_guilds g with
            | none =>
              have hres : cache_voice_state s vs =
                  { s with voice_states := eraseKey s.voice_states (g, vs.user_id) } := by
                simp [cache_voice_state, hg, hst, h0, hcv, hc, hgu]
              rw [hres]
              first
                | exact h
                | exact nonemptyMap_eraseKey _ _ h
                | exact nonemptyMap_insertRep _ _ _ h (insertSet_ne_nil _ _)
                | exact nonemptyMap_insertRep _ _ _ h (eraseSet_ne_nil_of_isEmpty_false hge2)
            | some S =>
              by_cases hge : (eraseSet S vs.user_id).isEmpty = true
              · have hres : cache_voice_state s vs =
                    { s with
                        voice_state_guilds := eraseKey s.voice_state_guilds g,
                        voice_states := eraseKey s.voice_states (g, vs.user_id) } := by
                  simp [cache_voice_state, hg, hst, h0, hcv, hc, hgu, hge]
                rw [hres]
                first
                  | exact h
                  | exact nonemptyMap_eraseKey _ _ h
                  | exact nonemptyMap_insertRep _ _ _ h (insertSet_ne_nil _ _)
                  | exact nonemptyMap_insertRep _ _ _ h (eraseSet_ne_nil_of_isEmpty_false hge2)
              · have hge2 : (eraseSet S vs.user_id).isEmpty = false := by simpa using hge
                have hres : cache_voice_state s vs =
                    { s with
                        voice_state_guilds := insertRep s.voice_state_guilds g (eraseSet S vs.user_id),
                        voice_states := eraseKey s.voice_states (g, vs.user_id) } := by
                  simp [cache_voice_state, hg, hst, h0, hcv, hc, hgu, hge2]
                rw [hres]
                first
                  | exact h
                  | exact nonemptyMap_eraseKey _ _ h
                  | exact nonemptyMap_insertRep _ _ _ h (insertSet_ne_nil _ _)
                  | exact nonemptyMap_insertRep _ _ _ h (eraseSet_ne_nil_of_isEmpty_false hge2)
          | some c1 =>
            have hres : cache_voice_state s vs = { s with
                voice_states := insertRep s.voice_states (g, vs.user_id) vs,
                voice_state_guilds := insertRep s.voice_state_guilds g (insertSet ((alookup s.voice_state_guilds g).getD []) vs.user_id),
                voice_state_channels := insertRep s.voice_state_channels c1 (insertSet ((alookup s.voice_state_channels c1).getD []) (g, vs.user_id)) } := by
              simp [cache_voice_state, hg, hst, h0, hcv, hc]
            rw [hres]
            first
              | exact h
              | exact nonemptyMap_eraseKey _ _ h
              | exact nonemptyMap_insertRep _ _ _ h (insertSet_ne_nil _ _)
              | exact nonemptyMap_insertRep _ _ _ h (eraseSet_ne_nil_of_isEmpty_false hge2)
        | some cvs =>
          by_cases hce : (eraseSet cvs (g, vs.user_id)).isEmpty = true
          · cases hc : vs.channel_id with
            | none =>
              cases hgu : alookup s.voice_state_guilds g with
              | none =>
                have hres : cache_voice_state s vs =
                    { s with
                        voice_state_channels := eraseKey s.voice_state_channels c0,
                        voice_states := eraseKey s.voice_states (g, vs.user_id) } := by
                  simp [cache_voice_state, hg, hst, h0, hcv, hce, hc, hgu]
                rw [hres]
                first
                  | exact h
                  | exact nonemptyMap_eraseKey _ _ h
                  | exact nonemptyMap_insertRep _ _ _ h (insertSet_ne_nil _ _)
                  | exact nonemptyMap_insertRep _ _ _ h (eraseSet_ne_nil_of_isEmpty_false hge2)
              | some S =>
                by_cases hge : (eraseSet S vs.user_id).isEmpty = true
                · have hres : cache_voice_state s vs =
                      { s with
                          voice_state_channels := eraseKey s.voice_state_channels c0,
                          voice_state_guilds := eraseKey s.voice_state_guilds g,
                          voice_states := eraseKey s.voice_states (g, vs.user_id) } := by
                    simp [cache_voice_state, hg, hst, h0, hcv, hce, hc, hgu, hge]
                  rw [hres]
                  first
                    | exact h
                    | exact nonemptyMap_eraseKey _ _ h
                    | exact nonemptyMap_insertRep _ _ _ h (insertSet_ne_nil _ _)
                    | exact nonemptyMap_insertRep _ _ _ h (eraseSet_ne_nil_of_isEmpty_false hge2)
                · have hge2 : (eraseSet S vs.user_id).isEmpty = false := by simpa using hge
                  have hres : cache_voice_state s vs =
                      { s with
                          voice_state_channels := eraseKey s.voice_state_channels c0,
                          voice_state_guilds := insertRep s.voice_state_guilds g (eraseSet S vs.user_id),
                          voice_states := eraseKey s.voice_states (g, vs.user_id) } := by
                    simp [cache_voice_state, hg, hst, h0, hcv, hce, hc, hgu, hge2]
                  rw [hres]
                  first
                    | exact h
                    | exact nonemptyMap_eraseKey _ _ h
                    | exact nonemptyMap_insertRep _ _ _ h (insertSet_ne_nil _ _)
                    | exact nonemptyMap_insertRep _ _ _ h (eraseSet_ne_nil_of_isEmpty_false hge2)
            | some c1 =>
              have hres : cache_voice_state s vs = { s with
                  voice_states := insertRep s.voice_states (g, vs.user_id) vs,
                  voice_state_guilds := insertRep s.voice_state_guilds g (insertSet ((alookup s.voice_state_guilds g).getD []) vs.user_id),
                  voice_state_channels := insertRep (eraseKey s.voice_state_channels c0) c1 (insertSet ((alookup (eraseKey s.voice_state_channels c0) c1).getD []) (g, vs.user_id)) } := by
                simp [cache_voice_state, hg, hst, h0, hcv, hce, hc]
              rw [hres]
              first
                | exact h
                | exact nonemptyMap_eraseKey _ _ h
                | exact nonemptyMap_insertRep _ _ _ h (insertSet_ne_nil _ _)
                | exact nonemptyMap_insertRep _ _ _ h (eraseSet_ne_nil_of_isEmpty_false hge2)
          · have hce2 : (eraseSet cvs (g, vs.user_id)).isEmpty = false := by simpa using hce
            cases hc : vs.channel_id with
            | none =>
              cases hgu : alookup s.voice_state_guilds g with
              | none =>
                have hres : cache_voice_state s vs =
                    { s with
                        voice_state_channels := insertRep s.voice_state_channels c0 (eraseSet cvs (g, vs.user_id)),
                        voice_states := eraseKey s.voice_states (g, vs.user_id) } := by
                  simp [cache_voice_state, hg, hst, h0, hcv, hce2, hc, hgu]
                rw [hres]
                first
                  | exact h
                  | exact nonemptyMap_eraseKey _ _ h
                  | exact nonemptyMap_insertRep _ _ _ h (insertSet_ne_nil _ _)
                  | exact nonemptyMap_insertRep _ _ _ h (eraseSet_ne_nil_of_isEmpty_false hge2)
              | some S =>
                by_cases hge : (eraseSet S vs.user_id).isEmpty = true
                · have hres : cache_voice_state s vs =
                      { s with
                          voice_state_channels := insertRep s.voice_state_channels c0 (eraseSet cvs (g, vs.user_id)),
                          voice_state_guilds := eraseKey s.voice_state_guilds g,
                          voice_states := eraseKey s.voice_states (g, vs.user_id) } := by
                    simp [cache_voice_state, hg, hst, h0, hcv, hce2, hc, hgu, hge]
                  rw [hres]
                  first
                    | exact h
                    | exact nonemptyMap_eraseKey _ _ h
                    | exact nonemptyMap_insertRep _ _ _ h (insertSet_ne_nil _ _)
                    | exact nonemptyMap_insertRep _ _ _ h (eraseSet_ne_nil_of_isEmpty_false hge2)
                · have hge2 : (eraseSet S vs.user_id).isEmpty = false := by simpa using hge
                  have hres : cache_voice_state s vs =
                      { s with
                          voice_state_channels := insertRep s.voice_state_channels c0 (eraseSet cvs (g, vs.user_id)),
                          voice_state_guilds := insertRep s.voice_state_guilds g (eraseSet S vs.user_id),
                          voice_states := eraseKey s.voice_states (g, vs.user_id) } := by
                    simp [cache_voice_state, hg, hst, h0, hcv, hce2, hc, hgu, hge2]
                  rw [hres]
                  first
                    | exact h
                    | exact nonemptyMap_eraseKey _ _ h
                    | exact nonemptyMap_insertRep _ _ _ h (insertSet_ne_nil _ _)
                    | exact nonemptyMap_insertRep _ _ _ h (eraseSet_ne_nil_of_isEmpty_false hge2)
            | some c1 =>
              have hres : cache_voice_state s vs = { s with
                  voice_states := insertRep s.voice_states (g, vs.user_id) vs,
                  voice_state_guilds := insertRep s.voice_state_guilds g (insertSet ((alookup s.voice_state_guilds g).getD []) vs.user_id),
                  voice_state_channels := insertRep (insertRep s.voice_state_channels c0 (eraseSet cvs (g, vs.user_id))) c1 (insertSet ((alookup (insertRep s.voice_state_channels c0 (eraseSet cvs (g, vs.user_id))) c1).getD []) (g, vs.user_id)) } := by
                simp [cache_voice_state, hg, hst, h0, hcv, hce2, hc]
              rw [hres]
              first
                | exact h
                | exact nonemptyMap_eraseKey _ _ h
                | exact nonemptyMap_insertRep _ _ _ h (insertSet_ne_nil _ _)
                | exact nonemptyMap_insertRep _ _ _ h (eraseSet_ne_nil_of_isEmpty_false hge2)

theorem chanNonempty_of_sameVoice {s t : CacheState} (hv : sameVoice s t)
    (h : chanNonempty s) : chanNonempty t := by
  intro c S hS
  rw [hv.1] at hS
  exact h c S hS

theorem chanNonempty_cache_voice_states (s : CacheState) (l : List VoiceState)
    (h : chanNonempty s) : chanNonempty (cache_voice_states s l) := by
  induction l generalizing s with
  | nil => exact h
  | cons v t ih => exact ih (cache_voice_state s v) (chanNonempty_cache_voice_state s v h)

theorem chanNonempty_cache_guild (s : CacheState) (g : Guild) (h : chanNonempty s) :
    chanNonempty (cache_guild s g) := by
  have h0 : chanNonempty { s with
      guild_channels := insertRep s.guild_channels g.id [],
      guild_emojis := insertRep s.guild_emojis g.id [],
      guild_members := insertRep s.guild_members g.id [],
      guild_presences := insertRep s.guild_presences g.id [],
      guild_roles := insertRep s.guild_roles g.id [],
      voice_state_guilds := insertRep s.voice_state_guilds g.id [] } := h
  have h1 := chanNonempty_of_sameVoice (cache_guild_channels_frame _ g.id g.channels).2 h0
  have h2 := chanNonempty_of_sameVoice (cache_emojis_frame _ g.id g.emojis).2 h1
  have h3 := chanNonempty_of_sameVoice (cache_members_frame _ g.id g.members).2 h2
  have h4 := chanNonempty_of_sameVoice (cache_presences_frame _ g.id g.presences).2 h3
  have h5 := chanNonempty_of_sameVoice (cache_roles_frame _ g.id g.roles).2 h4
  have h6 := chanNonempty_cache_voice_states _ g.voice_states h5
  exact h6

theorem chanNonempty_update (e : Event) (s : CacheState) (h : chanNonempty s) :
    chanNonempty (e.update s) := by
  cases e with
  | channelCreate c => exact chanNonempty_of_sameVoice (channelCreateUpdate_frame c s).2 h
  | channelDelete c => exact chanNonempty_of_sameVoice (channelDeleteUpdate_frame c s).2 h
  | channelUpdate c => exact chanNonempty_of_sameVoice (channelUpdateUpdate_frame c s).2 h
  | guildCreate g =>
    show chanNonempty (guildCreateUpdate g s)
    simp only [guildCreateUpdate]
    split
    · exact h
    · exact chanNonempty_cache_guild s g h
  | memberAdd m => exact chanNonempty_of_sameVoice (memberAddUpdate_frame m s).2 h
  | memberChunk gid ms => exact chanNonempty_of_sameVoice (memberChunkUpdate_frame gid ms s).2 h
  | memberRemove gid u => exact chanNonempty_of_sameVoice (memberRemoveUpdate_frame gid u s).2 h
  | messageCreate m => exact chanNonempty_of_sameVoice (messageCreateUpdate_cfg_voice m s).2 h
  | messageDelete cid id =>
    exact chanNonempty_of_sameVoice (messageDeleteUpdate_cfg_voice cid id s).2 h
  | messageDeleteBulk cid ids =>
    exact chanNonempty_of_sameVoice (messageDeleteBulkUpdate_cfg_voice cid ids s).2 h
  | unavailableGuild id => exact chanNonempty_of_sameVoice (unavailableGuildUpdate_frame id s).2 h
  | voiceStateUpdate vs =>
    show chanNonempty (voiceStateUpdateUpdate vs s)
    simp only [voiceStateUpdateUpdate]
    split
    · exact h
    · exact chanNonempty_cache_voice_state s vs h

theorem chanNonempty_applyEvents (es : List Event) (s : CacheState) (h : chanNonempty s) :
    chanNonempty (applyEvents es s) := by
  induction es generalizing s with
  | nil => exact h
  | cons e t ih => exact ih (e.update s) (chanNonempty_update e s h)

theorem chanNonempty_empty (cfg : Config) : chanNonempty (emptyCache cfg) := by
  intro c S hS
  simp [emptyCache, alookup] at hS


/-! ## Claim theorems -/

/-- C1 counterexample: with cap 2, creating messages 100, 101, 102 in
channel 5 evicts nothing — `message(5, 100)` returns a snapshot rather than
the `None` the claim requires (the handler evicts only when the size already
exceeds the cap, and then evicts the largest key). -/
theorem message_cap_s5_counterexample :
    s5_state.config.message_cache_size = 2 ∧
    (s5_state.message 5 100).isSome = true ∧
    (s5_state.message 5 101).isSome = true ∧
    (s5_state.message 5 102).isSome = true := by
  decide

/-- C2 counterexample: with cap 2 the channel retains 3 messages, so
`|messages[c]| ≤ message_cache_size` fails. -/
theorem message_cap_exceeded_counterexample :
    ((alookup s5_state.messages 5).getD []).length = 3 ∧
    s5_state.config.message_cache_size = 2 := by
  decide

/-- C3 counterexample: a member-add carrying a structurally changed user
record for a user cached in another guild resets the stored guild set to the
event's guild only; member (3, 2) is still cached while guild 3 is gone from
the user's set, so I3/P4 fails after the handler. -/
theorem changed_user_resets_guild_set_counterexample :
    (changedUserState.member 3 2).isSome = true ∧
    3 ∉ ((alookup changedUserState.users 2).map Prod.snd).getD [] := by
  decide

/-- The member stored by `cache_member` always compares equal (in the
short-circuit sense) to the member it was built from. -/
theorem eqMember_ofMember (g : GuildId) (m : Member) :
    (CachedMember.ofMember g m).eqMember m = true := by
  simp [CachedMember.eqMember, CachedMember.ofMember]

theorem cache_member_result (s : CacheState) (g : GuildId) (m : Member) :
    ∃ cm, alookup (cache_member s g m).members (g, m.user.id) = some cm ∧
      cm.eqMember m = true := by
  cases h : alookup s.members (g, m.user.id) with
  | some cm0 =>
    by_cases he : cm0.eqMember m = true
    · exact ⟨cm0, by simp [cache_member, h, he], he⟩
    · refine ⟨CachedMember.ofMember g m, ?_, eqMember_ofMember g m⟩
      simp only [cache_member, h]
      rw [if_neg he]
      show alookup (insertRep (cache_user s m.user g).members (g, m.user.id) _)
        (g, m.user.id) = _
      rw [alookup_insertRep, if_pos rfl]
  | none =>
    refine ⟨CachedMember.ofMember g m, ?_, eqMember_ofMember g m⟩
    simp only [cache_member, h]
    show alookup (insertRep (cache_user s m.user g).members (g, m.user.id) _)
      (g, m.user.id) = _
    rw [alookup_insertRep, if_pos rfl]

/-- `cache_member` short-circuits: when the stored member compares equal the
state is returned untouched. -/
theorem cache_member_short (s : CacheState) (g : GuildId) (m : Member) (cm : CachedMember)
    (h : alookup s.members (g, m.user.id) = some cm) (he : cm.eqMember m = true) :
    cache_member s g m = s := by
  simp [cache_member, h, he]

/-- The shape of `memberAddUpdate` when the category is enabled. -/
theorem memberAddUpdate_guard_true (m : Member) (s : CacheState)
    (hg : guardOn s EventType.MEMBER_ADD = true) :
    memberAddUpdate m s =
      { cache_member s m.guild_id m with
        guild_members := insertRep (cache_member s m.guild_id m).guild_members m.guild_id
          (insertSet ((alookup (cache_member s m.guild_id m).guild_members m.guild_id).getD [])
            m.user.id) } := by
  simp only [memberAddUpdate]
  rw [if_neg]
  simp [hg]

/-- The heart of the amended C3: caching a member whose user record agrees
with the stored one (or whose user is uncached) preserves the user/member
invariant. -/
theorem usersInv_after_insert (s : CacheState) (m : Member) (g : GuildId)
    (hinv : usersInv s) (hok : recordOk s m) :
    usersInv { cache_user s m.user g with
      members := insertRep (cache_user s m.user g).members (g, m.user.id)
        (CachedMember.ofMember g m) } := by
  cases hu : alookup s.users m.user.id with
  | some pair =>
    obtain ⟨u0, gs⟩ := pair
    have hu0 : u0 = m.user := hok u0 gs hu
    rw [hu0] at hu
    have husers : (cache_user s m.user g).users =
        insertRep s.users m.user.id (m.user, insertSet gs g) := by
      simp [cache_user, hu]
    have hmembers : (cache_user s m.user g).members = s.members := by
      simp [cache_user, hu]
    constructor
    · intro uid1 u1 gs1 h1
      rw [show ({ cache_user s m.user g with
            members := insertRep (cache_user s m.user g).members (g, m.user.id)
              (CachedMember.ofMember g m) } : CacheState).users =
          (cache_user s m.user g).users from rfl, husers, alookup_insertRep] at h1
      by_cases hid : uid1 = m.user.id
      · rw [if_pos hid] at h1
        obtain ⟨hu1, hgs1⟩ : m.user = u1 ∧ insertSet gs g = gs1 := by
          constructor <;> injection h1 with hpair <;> cases hpair <;> rfl
        subst hid
        refine ⟨hgs1 ▸ insertSet_ne_nil gs g, ?_⟩
        intro g1
        rw [← hgs1, mem_insertSet]
        show _ ↔ (alookup (insertRep (cache_user s m.user g).members (g, m.user.id)
          (CachedMember.ofMember g m)) (g1, m.user.id)).isSome = true
        rw [alookup_insertRep]
        by_cases hgg : g1 = g
        · subst hgg
          rw [if_pos rfl]
          simp
        · rw [if_neg (by simp [Prod.ext_iff, hgg])]
          rw [hmembers]
          have := (hinv.1 m.user.id m.user gs hu).2 g1
          simp only [this]
          constructor
          · rintro (h | h)
            · exact absurd h hgg
            · exact h
          · exact Or.inr
      · rw [if_neg hid] at h1
        have hold := hinv.1 uid1 u1 gs1 h1
        refine ⟨hold.1, ?_⟩
        intro g1
        show _ ↔ (alookup (insertRep (cache_user s m.user g).members (g, m.user.id)
          (CachedMember.ofMember g m)) (g1, uid1)).isSome = true
        rw [alookup_insertRep, if_neg (by simp [Prod.ext_iff, hid]), hmembers]
        exact hold.2 g1
    · intro g1 uid1 h1
      rw [show ({ cache_user s m.user g with
            members := insertRep (cache_user s m.user g).members (g, m.user.id)
              (CachedMember.ofMember g m) } : CacheState).members =
          insertRep (cache_user s m.user g).members (g, m.user.id)
            (CachedMember.ofMember g m) from rfl, alookup_insertRep] at h1
      show (alookup (cache_user s m.user g).users uid1).isSome = true
      rw [husers, alookup_insertRep]
      by_cases hid : uid1 = m.user.id
      · rw [if_pos hid]
        simp
      · rw [if_neg hid]
        rw [if_neg (by simp [Prod.ext_iff, hid]), hmembers] at h1
        exact hinv.2 g1 uid1 h1
  | none =>
    have husers : (cache_user s m.user g).users =
        insertRep s.users m.user.id (m.user, [g]) := by
      simp [cache_user, hu]
    have hmembers : (cache_user s m.user g).members = s.members := by
      simp [cache_user, hu]
    have hnomem : ∀ g1, (alookup s.members (g1, m.user.id)).isSome = false := by
      intro g1
      by_contra hcon
      have : (alookup s.members (g1, m.user.id)).isSome = true := by
        cases h : (alookup s.members (g1, m.user.id)).isSome
        · exact absurd h hcon
        · rfl
      have := hinv.2 g1 m.user.id this
      rw [hu] at this
      simp at this
    constructor
    · intro uid1 u1 gs1 h1
      rw [show ({ cache_user s m.user g with
            members := insertRep (cache_user s m.user g).members (g, m.user.id)
              (CachedMember.ofMember g m) } : CacheState).users =
          (cache_user s m.user g).users from rfl, husers, alookup_insertRep] at h1
      by_cases hid : uid1 = m.user.id
      · rw [if_pos hid] at h1
        obtain ⟨hu1, hgs1⟩ : m.user = u1 ∧ [g] = gs1 := by
          constructor <;> injection h1 with hpair <;> cases hpair <;> rfl
        subst hid
        refine ⟨hgs1 ▸ (by simp), ?_⟩
        intro g1
        rw [← hgs1]
        show _ ↔ (alookup (insertRep (cache_user s m.user g).members (g, m.user.id)
          (CachedMember.ofMember g m)) (g1, m.user.id)).isSome = true
        rw [alookup_insertRep]
        by_cases hgg : g1 = g
        · subst hgg
          rw [if_pos rfl]
          simp
        · rw [if_neg (by simp [Prod.ext_iff, hgg]), hmembers]
          simp only [List.mem_singleton, hgg, false_iff]
          rw [hnomem g1]
          simp
      · rw [if_neg hid] at h1
        have hold := hinv.1 uid1 u1 gs1 h1
        refine ⟨hold.1, ?_⟩
        intro g1
        show _ ↔ (alookup (insertRep (cache_user s m.user g).members (g, m.user.id)
          (CachedMember.ofMember g m)) (g1, uid1)).isSome = true
        rw [alookup_insertRep, if_neg (by simp [Prod.ext_iff, hid]), hmembers]
        exact hold.2 g1
    · intro g1 uid1 h1
      rw [show ({ cache_user s m.user g with
            members := insertRep (cache_user s m.user g).members (g, m.user.id)
              (CachedMember.ofMember g m) } : CacheState).members =
          insertRep (cache_user s m.user g).members (g, m.user.id)
            (CachedMember.ofMember g m) from rfl, alookup_insertRep] at h1
      show (alookup (cache_user s m.user g).users uid1).isSome = true
      rw [husers, alookup_insertRep]
      by_cases hid : uid1 = m.user.id
      · rw [if_pos hid]
        simp
      · rw [if_neg hid]
        rw [if_neg (by simp [Prod.ext_iff, hid]), hmembers] at h1
        exact hinv.2 g1 uid1 h1

/-- C3 (amended): the user/member invariant (I3/P4) is preserved by a
member-add whose carried user record is structurally equal to the cached one
or whose user is not cached; when the record is structurally changed for a
user cached in other guilds, `cache_user` resets the stored guild set to the
event's guild alone and the invariant breaks (see the counterexample). -/
theorem member_add_preserves_users_invariant (s : CacheState) (m : Member)
    (hinv : usersInv s) (hok : recordOk s m) :
    usersInv (memberAddUpdate m s) := by
  by_cases hg : guardOn s EventType.MEMBER_ADD = true
  · rw [memberAddUpdate_guard_true m s hg]
    suffices hcm : usersInv (cache_member s m.guild_id m) by exact hcm
    cases hm : alookup s.members (m.guild_id, m.user.id) with
    | some cm =>
      by_cases he : cm.eqMember m = true
      · rw [cache_member_short s m.guild_id m cm hm he]
        exact hinv
      · have hexp : cache_member s m.guild_id m =
            { cache_user s m.user m.guild_id with
              members := insertRep (cache_user s m.user m.guild_id).members
                (m.guild_id, m.user.id) (CachedMember.ofMember m.guild_id m) } := by
          simp only [cache_member, hm]
          rw [if_neg he]
        rw [hexp]
        exact usersInv_after_insert s m m.guild_id hinv hok
    | none =>
      have hexp : cache_member s m.guild_id m =
          { cache_user s m.user m.guild_id with
            members := insertRep (cache_user s m.user m.guild_id).members
              (m.guild_id, m.user.id) (CachedMember.ofMember m.guild_id m) } := by
        simp only [cache_member, hm]
      rw [hexp]
      exact usersInv_after_insert s m m.guild_id hinv hok
  · have h1 : memberAddUpdate m s = s := by
      simp only [memberAddUpdate]
      rw [if_pos]
      simp [hg]
    rw [h1]
    exact hinv

/-- C3 witness: the invariant holds on the fresh cache and is carried
through two member-adds of the same user record in guilds 1 and 3. -/
theorem member_add_preserves_users_invariant_witness :
    usersInv (emptyCache Config.default) ∧
    usersInv (memberAddUpdate (testMember 3 (testUser 2 "user"))
      (memberAddUpdate (testMember 1 (testUser 2 "user")) (emptyCache Config.default))) := by
  have h0 : usersInv (emptyCache Config.default) := by
    constructor
    · intro uid u gs h
      simp [emptyCache] at h
    · intro g uid h
      simp [emptyCache] at h
  have hok0 : recordOk (emptyCache Config.default) (testMember 1 (testUser 2 "user")) := by
    intro u0 gs h
    simp [emptyCache] at h
  have h1 := member_add_preserves_users_invariant (emptyCache Config.default)
    (testMember 1 (testUser 2 "user")) h0 hok0
  have hok1 : recordOk (memberAddUpdate (testMember 1 (testUser 2 "user"))
      (emptyCache Config.default)) (testMember 3 (testUser 2 "user")) := by
    intro u0 gs h
    have hc : alookup (memberAddUpdate (testMember 1 (testUser 2 "user"))
        (emptyCache Config.default)).users (testMember 3 (testUser 2 "user")).user.id =
        some (testUser 2 "user", [1]) := by decide
    rw [hc] at h
    injection h with hp
    cases hp
    rfl
  exact ⟨h0, member_add_preserves_users_invariant _ _ h1 hok1⟩

/-- C4 (code-bug evidence): `MemberRemove(3, user 2)` deletes the member
entry and the reverse-index entry, but leaves `users` untouched: guild 3 is
still in user 2's stored guild set, and removing the last guild leaves the
user entry in place — contradicting the claim and the repository's own
`test_cache_user_guild_state`. -/
theorem member_remove_user_bookkeeping_missing :
    s2_state.member 3 2 = none ∧
    2 ∉ (alookup s2_state.guild_members 3).getD [] ∧
    3 ∈ ((alookup s2_state.users 2).map Prod.snd).getD [] ∧
    ((applyEvents [Event.memberRemove 1 (testUser 2 "user")] s2_state).user 2).isSome = true := by
  decide

/-- C5 (code-bug evidence): `clear()` drops only eight of the indices. A
cached message, a cached member and an unavailable-guild entry all survive a
`clear()`, so the cleared cache is not observationally a fresh cache — even
though the cleared part (here `users`) does go away. -/
theorem clear_retains_indices :
    (preClearState.clear.message 5 100).isSome = true ∧
    (preClearState.clear.member 1 2).isSome = true ∧
    7 ∈ preClearState.clear.unavailable_guilds ∧
    preClearState.clear.user 2 = none ∧
    preClearState.clear ≠ emptyCache Config.default := by
  decide

/-- C6 counterexample: a voice-state event for an absent (guild, user) with
no channel is not a no-op: on a reachable state where guild-create eagerly
initialized `voice_state_guilds[1]` to the empty set, the event deletes that
key. -/
theorem voice_absent_none_drops_empty_guild_key :
    alookup emptyGuildState.voice_states (1, 9) = none ∧
    alookup emptyGuildState.voice_state_guilds 1 = some [] ∧
    alookup (cache_voice_state emptyGuildState (testVoiceState 1 none 9)).voice_state_guilds 1
      = none ∧
    cache_voice_state emptyGuildState (testVoiceState 1 none 9) ≠ emptyGuildState := by
  decide

/-- C7 counterexample: guild-create for a guild with no voice states eagerly
inserts an empty set into `voice_state_guilds`, so the no-empty-values
invariant fails for that index in a reachable state. -/
theorem guild_create_inserts_empty_voice_set :
    alookup emptyGuildState.voice_state_guilds 1 = some [] := by
  decide

/-- C1 (amended): a `MessageCreate` evicts only when the channel map's size
already exceeds the configured cap, and what it evicts is the entry with the
largest (newest) message id, not the smallest: afterwards the retained keys
are exactly the new id plus every old key that was not the maximum. -/
theorem message_create_evicts_largest_key (s : CacheState) (m : Message)
    (hg : guardOn s EventType.MESSAGE_CREATE = true)
    (hsorted : ((alookup s.messages m.channel_id).getD []).Pairwise (fun p q => p.1 < q.1))
    (hlen : ((alookup s.messages m.channel_id).getD []).length > s.config.message_cache_size) :
    ∀ k, k ∈ keysOf ((alookup (messageCreateUpdate m s).messages m.channel_id).getD []) ↔
      (k = m.id ∨
        (k ∈ keysOf ((alookup s.messages m.channel_id).getD []) ∧
          ∃ k2, k2 ∈ keysOf ((alookup s.messages m.channel_id).getD []) ∧ k < k2)) := by
  intro k
  have hne : ((alookup s.messages m.channel_id).getD []) ≠ [] := by
    intro h
    rw [h] at hlen
    simp at hlen
  obtain ⟨p, hp⟩ : ∃ p, ((alookup s.messages m.channel_id).getD []).getLast? = some p := by
    cases hq : ((alookup s.messages m.channel_id).getD []).getLast? with
    | none => exact absurd (List.getLast?_eq_none_iff.mp hq) hne
    | some p => exact ⟨p, rfl⟩
  have hupd : (messageCreateUpdate m s).messages =
      insertRep s.messages m.channel_id
        (btInsert (btRemove ((alookup s.messages m.channel_id).getD []) p.1) m.id
          (CachedMessage.ofMessage m)) := by
    simp only [messageCreateUpdate]
    rw [if_neg (by simp [hg]), if_pos hlen, hp]
  rw [hupd, alookup_insertRep, if_pos rfl]
  simp only [Option.getD_some]
  rw [keysOf_btInsert, keysOf_btRemove]
  have hpmem : p.1 ∈ keysOf ((alookup s.messages m.channel_id).getD []) := by
    unfold keysOf
    exact List.mem_map_of_mem Prod.fst (mem_of_getLastQ _ p hp)
  constructor
  · rintro (rfl | ⟨hmem, hnep⟩)
    · exact Or.inl rfl
    · refine Or.inr ⟨hmem, p.1, hpmem, ?_⟩
      have hle := sorted_le_getLast _ hsorted p hp k hmem
      exact lt_of_le_of_ne hle hnep
  · rintro (rfl | ⟨hmem, k2, hk2, hlt⟩)
    · exact Or.inl rfl
    · refine Or.inr ⟨hmem, ?_⟩
      have hle := sorted_le_getLast _ hsorted p hp k2 hk2
      exact fun he => absurd (lt_of_lt_of_le hlt hle) (by rw [he]; exact lt_irrefl _)

/-- C1 witness: on the S5 state (cap 2, keys 100/101/102) a fourth create of
id 103 evicts 102, the largest key, keeping 100 and 101. -/
theorem message_create_evicts_largest_key_witness :
    guardOn s5_state EventType.MESSAGE_CREATE = true ∧
    ((alookup s5_state.messages 5).getD []).Pairwise (fun p q => p.1 < q.1) ∧
    ((alookup s5_state.messages 5).getD []).length > s5_state.config.message_cache_size ∧
    ∀ k, k ∈ keysOf
        ((alookup (messageCreateUpdate (testMessage 5 103) s5_state).messages
          (testMessage 5 103).channel_id).getD []) ↔
      (k = (testMessage 5 103).id ∨
        (k ∈ keysOf ((alookup s5_state.messages (testMessage 5 103).channel_id).getD []) ∧
          ∃ k2, k2 ∈ keysOf ((alookup s5_state.messages
            (testMessage 5 103).channel_id).getD []) ∧ k < k2)) :=
  ⟨by decide, by decide, by decide,
   message_create_evicts_largest_key s5_state (testMessage 5 103) (by decide) (by decide)
     (by decide)⟩

/-- C2 (amended): for every event sequence applied to an initially empty
cache the per-channel message count never exceeds `message_cache_size + 1`
(not `message_cache_size`: eviction fires only when the size already exceeds
the cap); inserting `cap + k` distinct messages into an empty channel leaves
exactly `cap + 1` (shown here for cap 2 with k = 1 and k = 2). -/
theorem message_count_bound_amended :
    (∀ (es : List Event) (cfg : Config) (c : ChannelId),
        ((alookup (applyEvents es (emptyCache cfg)).messages c).getD []).length ≤
          cfg.message_cache_size + 1) ∧
    ((alookup s5_state.messages 5).getD []).length = 3 ∧
    ((alookup (applyEvents [Event.messageCreate (testMessage 5 103)] s5_state).messages 5).getD
        []).length = 3 ∧
    ((alookup (applyEvents [Event.messageCreate (testMessage 5 103),
        Event.messageCreate (testMessage 5 104)] s5_state).messages 5).getD []).length = 3 := by
  refine ⟨?_, by decide, by decide, by decide⟩
  intro es cfg c
  have hempty : msgBound (emptyCache cfg) := by
    intro c0
    simp [emptyCache, msgBound]
  have hb := msgBound_applyEvents es (emptyCache cfg) hempty c
  rw [applyEvents_config es (emptyCache cfg)] at hb
  exact hb

/-- Applying the same member-add twice produces the same state as applying
it once. -/
theorem memberAddUpdate_idem (m : Member) (s : CacheState) :
    memberAddUpdate m (memberAddUpdate m s) = memberAddUpdate m s := by
  by_cases hg : guardOn s EventType.MEMBER_ADD = true
  · have hg1 : guardOn (memberAddUpdate m s) EventType.MEMBER_ADD = true := by
      unfold guardOn at hg ⊢
      rw [show (memberAddUpdate m s).config = s.config from (memberAddUpdate_frame m s).1.1]
      exact hg
    obtain ⟨cm, hcm, hcme⟩ := cache_member_result s m.guild_id m
    have hcm1 : alookup (memberAddUpdate m s).members (m.guild_id, m.user.id) = some cm := by
      rw [memberAddUpdate_guard_true m s hg]
      exact hcm
    have hshort : cache_member (memberAddUpdate m s) m.guild_id m = memberAddUpdate m s :=
      cache_member_short _ _ _ cm hcm1 hcme
    rw [memberAddUpdate_guard_true m (memberAddUpdate m s) hg1, hshort]
    have hgm : alookup (memberAddUpdate m s).guild_members m.guild_id =
        some (insertSet ((alookup (cache_member s m.guild_id m).guild_members
          m.guild_id).getD []) m.user.id) := by
      rw [memberAddUpdate_guard_true m s hg]
      show alookup (insertRep _ m.guild_id _) m.guild_id = _
      rw [alookup_insertRep, if_pos rfl]
    rw [hgm]
    simp only [Option.getD_some]
    rw [insertSet_of_mem _ _ ((mem_insertSet _ _ _).mpr (Or.inl rfl))]
    rw [insertRep_of_lookup_eq _ _ _ hgm]
  · have h1 : memberAddUpdate m s = s := by
      simp only [memberAddUpdate]
      rw [if_pos]
      simp [hg]
    rw [h1, h1]

/-- C9: the upserts are equality-short-circuiting — a stored value equal to
the incoming one is returned unchanged with no write (for the guild variant
the stored cell, including its `guild_id`, survives untouched) — and, through
`cache_member`'s matching short-circuit, applying the same member-add twice
equals applying it once. -/
theorem upsert_short_circuit_and_member_add_idem :
    (∀ (K V : Type) (i1 : DecidableEq K) (i2 : DecidableEq V)
        (map : List (K × V)) (k : K) (v : V),
        alookup map k = some v → upsert_item map k v = (map, v)) ∧
    (∀ (K V : Type) (i1 : DecidableEq K) (i2 : DecidableEq V)
        (map : List (K × GuildItem V)) (g : GuildId) (k : K) (it : GuildItem V),
        alookup map k = some it → upsert_guild_item map g k it.data = (map, it.data)) ∧
    (∀ (m : Member) (s : CacheState),
        (Event.memberAdd m).update ((Event.memberAdd m).update s) =
          (Event.memberAdd m).update s) := by
  refine ⟨?_, ?_, ?_⟩
  · intro K V i1 i2 map k v h
    simp [upsert_item, h]
  · intro K V i1 i2 map g k it h
    simp [upsert_guild_item, h]
  · intro m s
    exact memberAddUpdate_idem m s

/-- C9 witness: a concrete short-circuit and a concrete double member-add. -/
theorem upsert_short_circuit_and_member_add_idem_witness :
    upsert_item [((1 : Nat), (5 : Nat))] 1 5 = ([(1, 5)], 5) ∧
    (Event.memberAdd (testMember 1 (testUser 2 "user"))).update
        ((Event.memberAdd (testMember 1 (testUser 2 "user"))).update
          (emptyCache Config.default)) =
      (Event.memberAdd (testMember 1 (testUser 2 "user"))).update
        (emptyCache Config.default) :=
  ⟨upsert_short_circuit_and_member_add_idem.1 Nat Nat instDecidableEqNat instDecidableEqNat
      [(1, 5)] 1 5 (by decide),
   upsert_short_circuit_and_member_add_idem.2.2 (testMember 1 (testUser 2 "user"))
      (emptyCache Config.default)⟩

/-- C8: whenever the bit of an event's category is not contained in the
configured event-type mask, `update` leaves the cache state (every index and
`current_user`) unchanged. -/
theorem disabled_event_type_is_noop (e : Event) (s : CacheState)
    (h : EventType.contains s.config.event_types e.eventType = false) :
    e.update s = s := by
  cases e <;>
    simp_all [Event.update, Event.eventType, guardOn,
      channelCreateUpdate, channelDeleteUpdate, channelUpdateUpdate, guildCreateUpdate,
      memberAddUpdate, memberChunkUpdate, memberRemoveUpdate, messageCreateUpdate,
      messageDeleteUpdate, messageDeleteBulkUpdate, unavailableGuildUpdate,
      voiceStateUpdateUpdate]

/-- C8 witness: with an empty event-type mask, a message-create leaves the
fresh cache unchanged. -/
theorem disabled_event_type_is_noop_witness :
    EventType.contains (emptyCache noEventsConfig).config.event_types
      (Event.messageCreate (testMessage 5 100)).eventType = false ∧
    (Event.messageCreate (testMessage 5 100)).update (emptyCache noEventsConfig) =
      emptyCache noEventsConfig :=
  ⟨by decide, disabled_event_type_is_noop _ _ (by decide)⟩

/-- C10: a channel-create or channel-update carrying a guild channel whose
own `guild_id` field is `None` leaves the cache unchanged: the channel is not
cached at all. -/
theorem unowned_guild_channel_not_cached (s : CacheState) (gc : GuildChannel)
    (h : gc.guildId = none) :
    channelCreateUpdate (Channel.guild gc) s = s ∧
    channelUpdateUpdate (Channel.guild gc) s = s := by
  constructor
  · unfold channelCreateUpdate
    split
    · rfl
    · simp [h]
  · unfold channelUpdateUpdate
    split
    · rfl
    · simp [h]

/-- C10 witness: a concrete text channel with `guild_id = None` is ignored by
both handlers on the fresh cache. -/
theorem unowned_guild_channel_not_cached_witness :
    (GuildChannel.text (testTextChannel 111 none)).guildId = none ∧
    channelCreateUpdate (Channel.guild (GuildChannel.text (testTextChannel 111 none)))
      (emptyCache Config.default) = emptyCache Config.default ∧
    channelUpdateUpdate (Channel.guild (GuildChannel.text (testTextChannel 111 none)))
      (emptyCache Config.default) = emptyCache Config.default :=
  ⟨rfl,
   (unowned_guild_channel_not_cached (emptyCache Config.default)
      (GuildChannel.text (testTextChannel 111 none)) rfl).1,
   (unowned_guild_channel_not_cached (emptyCache Config.default)
      (GuildChannel.text (testTextChannel 111 none)) rfl).2⟩

/-- C7 (amended): the no-empty-values invariant holds of
`voice_state_channels` in every reachable state — every event handler either
leaves a key absent or maps it to a nonempty set — and the voice-state
coordinator preserves the same invariant for `voice_state_guilds`; the claim
fails only for guild-create's eager initialization of `voice_state_guilds`
(see the counterexample). -/
theorem voice_sets_nonempty_amended :
    (∀ (es : List Event) (cfg : Config), chanNonempty (applyEvents es (emptyCache cfg))) ∧
    (∀ (s : CacheState) (vs : VoiceState), guildsNonempty s →
      guildsNonempty (cache_voice_state s vs)) :=
  ⟨fun es cfg => chanNonempty_applyEvents es (emptyCache cfg) (chanNonempty_empty cfg),
   guildsNonempty_cache_voice_state⟩

/-- C6 (amended): the §4.7 voice transitions as the code actually performs
them. (1) An event without a guild id is a no-op. (2) Absent + no channel is
a no-op provided the stored guild set, if any, is nonempty and omits the
user — without that proviso the handler can drop an empty
`voice_state_guilds` key (see the counterexample). (3) Absent + channel c
inserts the state and adds the user to both reverse indices. (4) A leave
from channel c0 removes the state and updates both reverse indices, dropping
each key exactly when its set empties. (5) A move to channel c1 replaces the
state entry without changing the number of stored states, removes (g, u)
from c0's set with empty-cleanup, and adds it to c1's set. -/
theorem voice_state_machine_amended (s : CacheState) (vs : VoiceState) :
    (vs.guild_id = none → cache_voice_state s vs = s) ∧
    (∀ g, vs.guild_id = some g → vs.channel_id = none →
      alookup s.voice_states (g, vs.user_id) = none →
      (∀ S, alookup s.voice_state_guilds g = some S → vs.user_id ∉ S ∧ S ≠ []) →
      cache_voice_state s vs = s) ∧
    (∀ g c, vs.guild_id = some g → vs.channel_id = some c →
      alookup s.voice_states (g, vs.user_id) = none →
      cache_voice_state s vs = { s with
        voice_states := insertRep s.voice_states (g, vs.user_id) vs,
        voice_state_guilds := insertRep s.voice_state_guilds g
          (insertSet ((alookup s.voice_state_guilds g).getD []) vs.user_id),
        voice_state_channels := insertRep s.voice_state_channels c
          (insertSet ((alookup s.voice_state_channels c).getD []) (g, vs.user_id)) }) ∧
    (∀ g vs0 c0 cvs S, vs.guild_id = some g → vs.channel_id = none →
      alookup s.voice_states (g, vs.user_id) = some vs0 →
      vs0.channel_id = some c0 →
      alookup s.voice_state_channels c0 = some cvs →
      alookup s.voice_state_guilds g = some S →
      cache_voice_state s vs = { s with
        voice_state_channels :=
          if (eraseSet cvs (g, vs.user_id)).isEmpty
          then eraseKey s.voice_state_channels c0
          else insertRep s.voice_state_channels c0 (eraseSet cvs (g, vs.user_id)),
        voice_state_guilds :=
          if (eraseSet S vs.user_id).isEmpty
          then eraseKey s.voice_state_guilds g
          else insertRep s.voice_state_guilds g (eraseSet S vs.user_id),
        voice_states := eraseKey s.voice_states (g, vs.user_id) }) ∧
    (∀ g vs0 c0 cvs c1, vs.guild_id = some g → vs.channel_id = some c1 →
      alookup s.voice_states (g, vs.user_id) = some vs0 →
      vs0.channel_id = some c0 →
      alookup s.voice_state_channels c0 = some cvs →
      (cache_voice_state s vs).voice_states.length = s.voice_states.length ∧
      cache_voice_state s vs = { s with
        voice_states := insertRep s.voice_states (g, vs.user_id) vs,
        voice_state_guilds := insertRep s.voice_state_guilds g
          (insertSet ((alookup s.voice_state_guilds g).getD []) vs.user_id),
        voice_state_channels :=
          insertRep
            (if (eraseSet cvs (g, vs.user_id)).isEmpty
             then eraseKey s.voice_state_channels c0
             else insertRep s.voice_state_channels c0 (eraseSet cvs (g, vs.user_id))) c1
            (insertSet ((alookup
              (if (eraseSet cvs (g, vs.user_id)).isEmpty
               then eraseKey s.voice_state_channels c0
               else insertRep s.voice_state_channels c0 (eraseSet cvs (g, vs.user_id)))
              c1).getD []) (g, vs.user_id)) }) := by
  refine ⟨?_, ?_, ?_, ?_, ?_⟩
  · intro hg
    simp [cache_voice_state, hg]
  · intro g hg hc hst hS
    cases hgu : alookup s.voice_state_guilds g with
    | none =>
      have he := eraseKey_of_lookup_none s.voice_states (g, vs.user_id) hst
      simp [cache_voice_state, hg, hc, hst, hgu, he]
    | some S =>
      obtain ⟨hnm, hne⟩ := hS S hgu
      have h1 : eraseSet S vs.user_id = S := eraseSet_of_not_mem S vs.user_id hnm
      have h2 : S.isEmpty = false := isEmpty_false_of_ne_nil hne
      have h3 : insertRep s.voice_state_guilds g S = s.voice_state_guilds :=
        insertRep_of_lookup_eq _ _ _ hgu
      have he := eraseKey_of_lookup_none s.voice_states (g, vs.user_id) hst
      simp [cache_voice_state, hg, hc, hst, hgu, h1, h2, h3, he]
  · intro g c hg hc hst
    simp [cache_voice_state, hg, hc, hst]
  · intro g vs0 c0 cvs S hg hc hst h0 hcv hgu
    cases hce : (eraseSet cvs (g, vs.user_id)).isEmpty <;>
      cases hge : (eraseSet S vs.user_id).isEmpty <;>
      simp [cache_voice_state, hg, hc, hst, h0, hcv, hgu, hce, hge]
  · intro g vs0 c0 cvs c1 hg hc hst h0 hcv
    have hlen : (insertRep s.voice_states (g, vs.user_id) vs).length = s.voice_states.length :=
      length_insertRep_of_mem _ _ _ _ hst
    constructor
    · cases hce : (eraseSet cvs (g, vs.user_id)).isEmpty <;>
        simp [cache_voice_state, hg, hc, hst, h0, hcv, hce, hlen]
    · cases hce : (eraseSet cvs (g, vs.user_id)).isEmpty <;>
        simp [cache_voice_state, hg, hc, hst, h0, hcv, hce]

end Dawn
